import Mathlib

/-!
# Command palette of SumatraPDF: filter, visibility policy, corpus

A shallow embedding of `src/CommandPalette.cpp`.  C strings are lists of
characters (the bytes before the terminating NUL), a `StrVec` is a list of
C strings, `i32` command ids are integers, and the `UINT_PTR` words of the
menu lists are natural numbers.
-/

namespace CommandPalette

/-! ## Strings and string vectors (`utils/StrUtil`, `utils/StrVec`) -/

/-- A C string: the characters before the terminating NUL. -/
abbrev CStr := List Char

/-- A `StrVec`: a growable vector of strings. -/
abbrev StrVec := List CStr

/-- Modelled from the spec: `str::IsWs` (utils/StrUtil.cpp) is not part of the
sources at hand; the query is "split on whitespace", read as the C whitespace
characters space, tab, line feed, vertical tab, form feed, carriage return. -/
def IsWs (c : Char) : Bool :=
  c == ' ' || (9 ≤ c.toNat && c.toNat ≤ 13)

/-- Modelled from the spec: `str::EmptyOrWhiteSpaceOnly` (utils/StrUtil.cpp)
is missing; "an empty or all-whitespace query": every character is
whitespace (vacuously so for the empty string). -/
def EmptyOrWhiteSpaceOnly (s : CStr) : Bool :=
  s.all IsWs

/-- Modelled from the spec: the C library `tolower` on a byte, "comparisons
case-insensitive": an upper-case ASCII letter goes to its lower-case form,
every other character is unchanged. -/
def tolower (c : Char) : Char :=
  c.toLower

/-- Modelled from the spec: `str::StartsWithI` (utils/StrUtil.cpp) is missing;
`s` begins with `pre`, compared character by character ignoring case. -/
def StartsWithI : CStr → CStr → Bool
  | _, [] => true
  | [], _ :: _ => false
  | a :: s, b :: pre => tolower a == tolower b && StartsWithI s pre

/-- Modelled from the spec: `str::ContainsI` (utils/StrUtil.cpp) is missing;
"occurs as a case-insensitive substring anywhere in the entry": `toFind`
starts, ignoring case, at some position of `s`. -/
def ContainsI : CStr → CStr → Bool
  | [], toFind => StartsWithI [] toFind
  | a :: s, toFind => StartsWithI (a :: s) toFind || ContainsI s toFind

/-- Modelled from the spec: `StrVec::AppendIfNotExists` (utils/StrVec) is
missing; "deduplicating by exact string equality": the string is appended
unless the vector already holds an equal one. -/
def AppendIfNotExists (v : StrVec) (s : CStr) : StrVec :=
  if v.contains s then v else v ++ [s]

/-- `StrVec::Reset`: the vector is emptied. -/
def Reset (_v : StrVec) : StrVec :=
  []

/-! ## Fuzzy filter -/

/-- The word-splitting loop of `FilterMatches`.  `cur` is the string that
`wordStart` points at: the characters since the last whitespace (each
whitespace is overwritten with NUL, and `wordStart` moves past it).  `wasWs`
is set at the first whitespace and never cleared. -/
def FilterMatches.splitWords : List Char → CStr → Bool → StrVec → StrVec
  | [], cur, _, words =>
    if cur.length > 0 then AppendIfNotExists words cur else words
  | c :: rest, cur, wasWs, words =>
    if IsWs c then
      if !wasWs then
        FilterMatches.splitWords rest [] true (AppendIfNotExists words cur)
      else
        FilterMatches.splitWords rest [] wasWs words
    else
      FilterMatches.splitWords rest (cur ++ [c]) wasWs words

/-- The final loop of `FilterMatches`: all words must be present. -/
def FilterMatches.allPresent (str : CStr) : StrVec → Bool
  | [] => true
  | word :: rest =>
    if !ContainsI str word then false else FilterMatches.allPresent str rest

/-- `FilterMatches(str, filter)`; a null `filter` is `none`. -/
def FilterMatches (str : CStr) (filter : Option CStr) : Bool :=
  match filter with
  | none => true
  | some f =>
    if EmptyOrWhiteSpaceOnly f then true
    else FilterMatches.allPresent str (FilterMatches.splitWords f [] false [])

/-- The loop of `FilterStrings` over `strs`, appending to `matchedOut`. -/
def FilterStrings.loop (filter : Option CStr) : List CStr → StrVec → StrVec
  | [], matchedOut => matchedOut
  | s :: rest, matchedOut =>
    if !FilterMatches s filter then FilterStrings.loop filter rest matchedOut
    else FilterStrings.loop filter rest (matchedOut ++ [s])

/-- `FilterStrings(strs, filter, matchedOut)`: the out-parameter is reset,
then filled; the result is its final content. -/
def FilterStrings (strs : StrVec) (filter : Option CStr) (matchedOut : StrVec) : StrVec :=
  let matchedOut := Reset matchedOut
  FilterStrings.loop filter strs matchedOut

/-! ### The filter as the specification words it -/

/-- The words of a query in the specification's sense: the maximal runs of
non-whitespace characters, in order. -/
def specWords.go : List Char → CStr → List CStr
  | [], cur => if cur.isEmpty then [] else [cur]
  | c :: rest, cur =>
    if IsWs c then
      (if cur.isEmpty then [] else [cur]) ++ specWords.go rest []
    else specWords.go rest (cur ++ [c])

/-- The whitespace-separated words `w1..wn` of a query. -/
def specWords (q : CStr) : List CStr :=
  specWords.go q []

/-- An entry matches in the specification's sense: it contains every word
of the query as a case-insensitive substring. -/
def specMatches (str q : CStr) : Bool :=
  (specWords q).all (fun w => ContainsI str w)

/-! ## Command ids, policy lists, permissions -/

/-- The enumerators of `Commands.h` that `CommandPalette.cpp` names.  The
header is not among the sources at hand, so their `i32` values are taken as
given. -/
structure Commands where
  CmdFirst : Int
  CmdNone : Int
  CmdOpenWithFirst : Int
  CmdOpenWithLast : Int
  CmdCommandPalette : Int
  CmdOpenSelectedDocument : Int
  CmdPinSelectedDocument : Int
  CmdForgetSelectedDocument : Int
  CmdExpandAll : Int
  CmdCollapseAll : Int
  CmdMoveFrameFocus : Int
  CmdFavoriteAdd : Int
  CmdFavoriteDel : Int
  CmdPresentationWhiteBackground : Int
  CmdPresentationBlackBackground : Int
  CmdSaveEmbeddedFile : Int
  CmdCreateShortcutToFile : Int
  CmdOpenFile : Int
  CmdOpenFolder : Int
  CmdExit : Int
  CmdNewWindow : Int
  CmdContributeTranslation : Int
  CmdOptions : Int
  CmdAdvancedOptions : Int
  CmdChangeLanguage : Int
  CmdCheckUpdate : Int
  CmdHelpOpenManualInBrowser : Int
  CmdHelpVisitWebsite : Int
  CmdHelpAbout : Int
  CmdDebugDownloadSymbols : Int
  CmdFavoriteToggle : Int
  CmdToggleFullscreen : Int
  CmdToggleMenuBar : Int
  CmdShowLog : Int
  CmdCreateAnnotFirst : Int
  CmdCreateAnnotLast : Int
  CmdSendByEmail : Int
  CmdSelectAnnotation : Int
  CmdDeleteAnnotation : Int
  CmdSaveAnnotations : Int
  CmdPrint : Int
  CmdCopyLinkTarget : Int
  CmdCopyComment : Int
  CmdCopyImage : Int
  CmdToggleBookmarks : Int
  CmdToggleScrollbars : Int
  CmdDebugShowLinks : Int
  CmdDebugTestApp : Int
  CmdDebugShowNotif : Int
  CmdDebugCrashMe : Int

/-- The array `gBlacklistCommandsFromPalette`. -/
def gBlacklistCommandsFromPalette (c : Commands) : List Int :=
  [ c.CmdNone,
    c.CmdOpenWithFirst,
    c.CmdOpenWithLast,
    c.CmdCommandPalette,
    c.CmdOpenSelectedDocument,
    c.CmdPinSelectedDocument,
    c.CmdForgetSelectedDocument,
    c.CmdExpandAll,
    c.CmdCollapseAll,
    c.CmdMoveFrameFocus,
    c.CmdFavoriteAdd,
    c.CmdFavoriteDel,
    c.CmdPresentationWhiteBackground,
    c.CmdPresentationBlackBackground,
    c.CmdSaveEmbeddedFile,
    c.CmdCreateShortcutToFile ]

/-- The array `gDocumentNotOpenWhitelist`. -/
def gDocumentNotOpenWhitelist (c : Commands) : List Int :=
  [ c.CmdOpenFile,
    c.CmdOpenFolder,
    c.CmdExit,
    c.CmdNewWindow,
    c.CmdContributeTranslation,
    c.CmdOptions,
    c.CmdAdvancedOptions,
    c.CmdChangeLanguage,
    c.CmdCheckUpdate,
    c.CmdHelpOpenManualInBrowser,
    c.CmdHelpVisitWebsite,
    c.CmdHelpAbout,
    c.CmdDebugDownloadSymbols,
    c.CmdFavoriteToggle,
    c.CmdToggleFullscreen,
    c.CmdToggleMenuBar,
    c.CmdShowLog ]

/-- The array `gCommandsNoActivate`. -/
def gCommandsNoActivate (c : Commands) : List Int :=
  [ c.CmdOptions,
    c.CmdChangeLanguage,
    c.CmdHelpAbout,
    c.CmdHelpOpenManualInBrowser,
    c.CmdHelpVisitWebsite,
    c.CmdOpenFile,
    c.CmdOpenFolder ]

/-- The arrays shared with `Menu.cpp` (declared `extern`, defined outside the
sources at hand): each is the sequence of `UINT_PTR` words of the array, read
up to its terminating 0. -/
structure MenuLists where
  removeIfAnnotsNotSupported : List Nat
  disableIfNoSelection : List Nat
  removeIfNoInternetPerms : List Nat
  removeIfNoFullscreenPerms : List Nat
  removeIfNoPrefsPerms : List Nat
  removeIfNoDiskAccessPerm : List Nat
  removeIfNoCopyPerms : List Nat
  removeIfChm : List Nat

/-- The permission flags queried with `HasPermission(Perm::...)`. -/
structure Permissions where
  InternetAccess : Bool
  FullscreenAccess : Bool
  SavePreferences : Bool
  PrinterAccess : Bool
  DiskAccess : Bool
  CopySelection : Bool

/-- The process-wide state `AllowCommand` reads besides its arguments: the
command enumerators, the menu lists, the granted permissions, the build flags
of `SumatraConfig.h`, and `gGlobalPrefs->fixedPageUI.hideScrollbars`. -/
structure PolicyEnv where
  cmds : Commands
  lists : MenuLists
  perms : Permissions
  gIsDebugBuild : Bool
  gIsPreReleaseBuild : Bool
  gIsPluginBuild : Bool
  hideScrollbars : Bool

/-- The loop of `__cmdInList(cmdId, ids, nIds)` over the `nIds` entries. -/
def __cmdInList (cmdId : Int) : List Int → Bool
  | [] => false
  | id :: rest => if id == cmdId then true else __cmdInList cmdId rest

/-- The cast `(UINT_PTR)cmdId` of an `i32`: sign extension to the 64-bit
pointer-sized unsigned word. -/
def toUIntPtr (cmdId : Int) : Nat :=
  (cmdId % (2 ^ 64 : Int)).toNat

/-- The loop of `IsCmdInMenuList(cmdId, a)`: it stops at the sentinel 0 ("a
must end with sentinel value of 0"); the end of the list is read as the
sentinel. -/
def IsCmdInMenuList.scan (id : Nat) : List Nat → Bool
  | [] => false
  | x :: rest =>
    if x == 0 then false
    else if x == id then true
    else IsCmdInMenuList.scan id rest

/-- `IsCmdInMenuList(cmdId, a)`. -/
def IsCmdInMenuList (cmdId : Int) (a : List Nat) : Bool :=
  IsCmdInMenuList.scan (toUIntPtr cmdId) a

/-- The entries of a menu list: the words before the terminating 0. -/
def menuListEntries (a : List Nat) : List Nat :=
  a.takeWhile (fun x => x != 0)

/-- An `Annotation` object, known by its handle only. -/
structure Annotation where
  handle : Nat
  deriving DecidableEq, Repr

/-- The struct `CommandPaletteBuildCtx`, with its default member values. -/
structure CommandPaletteBuildCtx where
  isDocLoaded : Bool := false
  supportsAnnots : Bool := false
  hasSelection : Bool := false
  isChm : Bool := false
  canSendEmail : Bool := false
  annotationUnderCursor : Option Annotation := none
  hasUnsavedAnnotations : Bool := false
  isCursorOnPage : Bool := false
  cursorOnLinkTarget : Bool := false
  cursorOnComment : Bool := false
  cursorOnImage : Bool := false
  hasToc : Bool := false
  allowToggleMenuBar : Bool := false
  deriving DecidableEq, Repr

/-! ## Visibility policy -/

/-- The `remove` flag that `AllowCommand` accumulates over the permission
checks. -/
def AllowCommand.remove (E : PolicyEnv) (cmdId : Int) : Bool :=
  let remove := false
  let remove :=
    if !E.perms.InternetAccess then
      remove || IsCmdInMenuList cmdId E.lists.removeIfNoInternetPerms
    else remove
  let remove :=
    if !E.perms.FullscreenAccess then
      remove || IsCmdInMenuList cmdId E.lists.removeIfNoFullscreenPerms
    else remove
  let remove :=
    if !E.perms.SavePreferences then
      remove || IsCmdInMenuList cmdId E.lists.removeIfNoPrefsPerms
    else remove
  let remove :=
    if !E.perms.PrinterAccess then
      remove || (cmdId == E.cmds.CmdPrint)
    else remove
  let remove :=
    if !E.perms.DiskAccess then
      remove || IsCmdInMenuList cmdId E.lists.removeIfNoDiskAccessPerm
    else remove
  let remove :=
    if !E.perms.CopySelection then
      remove || IsCmdInMenuList cmdId E.lists.removeIfNoCopyPerms
    else remove
  remove

/-- The tail of `AllowCommand` after the permission checks: the cursor, table
of contents and scrollbar gates, then the `switch` over the debug commands. -/
def AllowCommand.tail (E : PolicyEnv) (ctx : CommandPaletteBuildCtx) (cmdId : Int) : Bool :=
  if !ctx.cursorOnLinkTarget && (cmdId == E.cmds.CmdCopyLinkTarget) then false
  else if !ctx.cursorOnComment && (cmdId == E.cmds.CmdCopyComment) then false
  else if !ctx.cursorOnImage && (cmdId == E.cmds.CmdCopyImage) then false
  else if !ctx.hasToc && (cmdId == E.cmds.CmdToggleBookmarks) then false
  else if (cmdId == E.cmds.CmdToggleScrollbars) && !E.hideScrollbars then false
  else if cmdId == E.cmds.CmdDebugShowLinks
      || cmdId == E.cmds.CmdDebugTestApp
      || cmdId == E.cmds.CmdDebugShowNotif
      || cmdId == E.cmds.CmdDebugCrashMe then
    E.gIsDebugBuild || E.gIsPreReleaseBuild
  else true

/-- `AllowCommand(ctx, cmdId)`. -/
def AllowCommand (E : PolicyEnv) (ctx : CommandPaletteBuildCtx) (cmdId : Int) : Bool :=
  if __cmdInList cmdId (gBlacklistCommandsFromPalette E.cmds) then false
  else if !ctx.isDocLoaded && !__cmdInList cmdId (gDocumentNotOpenWhitelist E.cmds) then false
  else if cmdId == E.cmds.CmdToggleMenuBar then ctx.allowToggleMenuBar
  else if !ctx.supportsAnnots
      && ((decide (cmdId ≥ E.cmds.CmdCreateAnnotFirst) && decide (cmdId ≤ E.cmds.CmdCreateAnnotLast))
        || IsCmdInMenuList cmdId E.lists.removeIfAnnotsNotSupported) then false
  else if !ctx.hasSelection && IsCmdInMenuList cmdId E.lists.disableIfNoSelection then false
  else if ctx.isChm && IsCmdInMenuList cmdId E.lists.removeIfChm then false
  else if !ctx.canSendEmail && (cmdId == E.cmds.CmdSendByEmail) then false
  else if ctx.annotationUnderCursor.isNone
      && ((cmdId == E.cmds.CmdSelectAnnotation) || (cmdId == E.cmds.CmdDeleteAnnotation)) then false
  else if (cmdId == E.cmds.CmdSaveAnnotations) && !ctx.hasUnsavedAnnotations then false
  else if (cmdId == E.cmds.CmdCheckUpdate) && E.gIsPluginBuild then false
  else if AllowCommand.remove E cmdId then false
  else AllowCommand.tail E ctx cmdId

/-! ## Windows, tabs and the corpus builder -/

/-- The path helpers `path::GetBaseNameTemp` and `path::GetDirTemp`
(utils/FileUtil, outside the sources at hand), taken as given. -/
structure PathFns where
  GetBaseNameTemp : CStr → CStr
  GetDirTemp : CStr → CStr

/-- What `CollectPaletteStrings` and `AddOpenedFiles` read of a `TabInfo`. -/
structure TabInfo where
  /-- Result of `tab->IsDocLoaded()`. -/
  isDocLoaded : Bool
  /-- Result of `ToUtf8Temp(tab->filePath.Get())`. -/
  filePath : CStr
  /-- Whether `tab->selectionOnPage` is non-null. -/
  selectionOnPage : Bool := false
  deriving DecidableEq, Repr

/-- What `CollectPaletteStrings` reads of the `IPageElement` under the
cursor. -/
structure IPageElement where
  /-- Whether `GetValue()` is non-null. -/
  hasValue : Bool
  isDest : Bool
  isComment : Bool
  isImage : Bool
  deriving DecidableEq, Repr

/-- What `CollectPaletteStrings` reads of a `DisplayModel` and its engine at
the cursor position. -/
structure DisplayModel where
  engineSupportsAnnotations : Bool
  engineHasUnsavedAnnotations : Bool
  /-- Result of `GetPageNoByPoint(cursorPos)`. -/
  pageNoByPoint : Int
  /-- Result of `GetAnnotationAtPos(cursorPos, nullptr)`. -/
  annotationAtPos : Option Annotation
  /-- Result of `GetElementAtPos(cursorPos, nullptr)`. -/
  elementAtPos : Option IPageElement
  deriving DecidableEq, Repr

/-- What the palette reads of a `WindowInfo`. -/
structure WindowInfo where
  tabs : List TabInfo := []
  /-- Position in `tabs` of `currentTab`, `none` for a null pointer. -/
  currentTab : Option Nat := none
  /-- Result of `win->IsDocLoaded()`. -/
  isDocLoaded : Bool := false
  showSelection : Bool := false
  tabsInTitlebar : Bool := false
  /-- Result of `CanSendAsEmailAttachment(win->currentTab)`. -/
  canSendAsEmailAttachment : Bool := false
  /-- Result of `win->AsFixed()`, `none` for a null pointer. -/
  asFixed : Option DisplayModel := none
  /-- Result of `win->ctrl->HacToc()`, `none` when `win->ctrl` is null. -/
  ctrlHacToc : Option Bool := none
  /-- Whether `win->AsChm()` is non-null: the window shows a CHM document.
  `CollectPaletteStrings` does not consult it. -/
  asChm : Bool := false
  /-- The handle `win->hwndFrame`; 0 is the null handle. -/
  hwndFrame : Nat := 0
  deriving DecidableEq, Repr

/-- The tab `win->currentTab` points at. -/
def WindowInfo.currentTabInfo (win : WindowInfo) : Option TabInfo :=
  match win.currentTab with
  | none => none
  | some i => win.tabs.get? i

/-- The first part of `CollectPaletteStrings`: the context built from the
window, its current tab and what lies under the cursor.  The member `isChm`
is not assigned and keeps its default. -/
def CollectPaletteStrings.buildCtx (win : WindowInfo) : CommandPaletteBuildCtx :=
  let ctx : CommandPaletteBuildCtx := {}
  let ctx := { ctx with isDocLoaded := win.isDocLoaded }
  let tab := win.currentTabInfo
  let ctx := { ctx with
    hasSelection := ctx.isDocLoaded && tab.isSome && win.showSelection
      && (match tab with
          | some t => t.selectionOnPage
          | none => false) }
  let ctx := { ctx with canSendEmail := win.canSendAsEmailAttachment }
  let ctx := { ctx with allowToggleMenuBar := !win.tabsInTitlebar }
  let ctx :=
    match win.asFixed with
    | none => ctx
    | some dm =>
      let ctx := { ctx with supportsAnnots := dm.engineSupportsAnnotations }
      let ctx := { ctx with hasUnsavedAnnotations := dm.engineHasUnsavedAnnotations }
      let pageNoUnderCursor := dm.pageNoByPoint
      let ctx := if pageNoUnderCursor > 0 then { ctx with isCursorOnPage := true } else ctx
      let ctx := { ctx with annotationUnderCursor := dm.annotationAtPos }
      match dm.elementAtPos with
      | none => ctx
      | some pageEl =>
        { ctx with
          cursorOnLinkTarget := pageEl.hasValue && pageEl.isDest
          cursorOnComment := pageEl.hasValue && pageEl.isComment
          cursorOnImage := pageEl.isImage }
  let ctx := { ctx with
    hasToc := match win.ctrlHacToc with
      | none => false
      | some b => b }
  ctx

/-- `ConvertPathForDisplayTemp(s)`: base name, two spaces, the directory in
parentheses. -/
def ConvertPathForDisplayTemp (P : PathFns) (s : CStr) : CStr :=
  let name := P.GetBaseNameTemp s
  let dir := P.GetDirTemp s
  let res := name ++ "  (".toList ++ dir
  let res := res ++ ")".toList
  res

/-- The loop of `AddOpenedFiles` over the tabs of a window; the state is the
pair `(strings, filePaths)`. -/
def AddOpenedFiles.loop (P : PathFns) : List TabInfo → StrVec × StrVec → StrVec × StrVec
  | [], st => st
  | tab :: rest, (strings, filePaths) =>
    if !tab.isDocLoaded then AddOpenedFiles.loop P rest (strings, filePaths)
    else
      let s := tab.filePath
      let filePaths := AppendIfNotExists filePaths s
      let s := P.GetBaseNameTemp s
      let filePaths := AppendIfNotExists filePaths s
      let strings := AppendIfNotExists strings s
      AddOpenedFiles.loop P rest (strings, filePaths)

/-- `AddOpenedFiles(strings, filePaths, win)`. -/
def AddOpenedFiles (P : PathFns) (st : StrVec × StrVec) (win : WindowInfo) : StrVec × StrVec :=
  AddOpenedFiles.loop P win.tabs st

/-- The loop of `CollectPaletteStrings` over `gWindows`. -/
def CollectPaletteStrings.opened (P : PathFns) : List WindowInfo → StrVec × StrVec → StrVec × StrVec
  | [], st => st
  | w :: rest, st => CollectPaletteStrings.opened P rest (AddOpenedFiles P st w)

/-- The loop of `CollectPaletteStrings` over the file history
`gGlobalPrefs->fileStates`, given by the file path of each entry. -/
def CollectPaletteStrings.history (P : PathFns) : List CStr → StrVec × StrVec → StrVec × StrVec
  | [], st => st
  | fs :: rest, (strings, filePaths) =>
    let s := fs
    let filePaths := filePaths ++ [s]
    let s := ConvertPathForDisplayTemp P s
    let filePaths := filePaths ++ [s]
    let strings := AppendIfNotExists strings s
    CollectPaletteStrings.history P rest (strings, filePaths)

/-- The loop of `CollectPaletteStrings` over the descriptions
`gCommandDescriptions` (a `SeqStrings`, given by its strings, which are
non-empty): `cmdId` advances with each description, and the description of an
allowed command is appended to `tempStrings`. -/
def CollectPaletteStrings.commands (E : PolicyEnv) (ctx : CommandPaletteBuildCtx) :
    List CStr → Int → StrVec → StrVec
  | [], _, tempStrings => tempStrings
  | strs :: rest, cmdId, tempStrings =>
    if AllowCommand E ctx cmdId then
      CollectPaletteStrings.commands E ctx rest (cmdId + 1) (tempStrings ++ [strs])
    else
      CollectPaletteStrings.commands E ctx rest (cmdId + 1) tempStrings

/-- Modelled from the spec: the comparison behind `GetSortedViewNoCase`
(utils/StrVec, missing): "sort case-insensitively by description text", the
lexicographic order of the lower-cased characters. -/
def lessEqNoCase : CStr → CStr → Bool
  | [], _ => true
  | _ :: _, [] => false
  | a :: s, b :: t =>
    if (tolower a).toNat < (tolower b).toNat then true
    else if (tolower b).toNat < (tolower a).toNat then false
    else lessEqNoCase s t

/-- Modelled from the spec: `StrVec::GetSortedViewNoCase` (utils/StrVec) is
missing; "sort this command subset case-insensitively by description text".
The sorted view is given as the list of the strings in sorted order. -/
def GetSortedViewNoCase (v : StrVec) : List CStr :=
  v.insertionSort (fun a b => lessEqNoCase a b = true)

/-- The command part of the corpus: the descriptions of the allowed commands,
sorted, as the last two loops of `CollectPaletteStrings` produce them. -/
def CollectPaletteStrings.commandPart (E : PolicyEnv) (descs : List CStr)
    (ctx : CommandPaletteBuildCtx) : List CStr :=
  let tempStrings : StrVec := []
  let cmdId : Int := E.cmds.CmdFirst + 1
  let tempStrings := CollectPaletteStrings.commands E ctx descs cmdId tempStrings
  GetSortedViewNoCase tempStrings

/-- The process-wide state `CollectPaletteStrings` reads besides the policy
state: the windows `gWindows`, the file paths of the history entries
`gGlobalPrefs->fileStates`, and the descriptions `gCommandDescriptions`. -/
structure AppState where
  gWindows : List WindowInfo
  fileStates : List CStr
  gCommandDescriptions : List CStr

/-- `CollectPaletteStrings(strings, filePaths, win)`; the result is the final
content of `(strings, filePaths)`. -/
def CollectPaletteStrings (E : PolicyEnv) (P : PathFns) (A : AppState)
    (st : StrVec × StrVec) (win : WindowInfo) : StrVec × StrVec :=
  let ctx := CollectPaletteStrings.buildCtx win
  let st := CollectPaletteStrings.opened P A.gWindows st
  let st := CollectPaletteStrings.history P A.fileStates st
  let sortedView := CollectPaletteStrings.commandPart E A.gCommandDescriptions ctx
  (st.1 ++ sortedView, st.2)

/-! ## The palette session -/

/-- The message id `WM_KEYDOWN` (0x0100). -/
def WM_KEYDOWN : Nat := 256

/-- The virtual-key code `VK_ESCAPE` (0x1B). -/
def VK_ESCAPE : Nat := 27

/-- The virtual-key code `VK_RETURN` (0x0D). -/
def VK_RETURN : Nat := 13

/-- The virtual-key code `VK_UP` (0x26). -/
def VK_UP : Nat := 38

/-- The virtual-key code `VK_DOWN` (0x28). -/
def VK_DOWN : Nat := 40

/-- What `PreTranslateMessage` reads of a `MSG`. -/
structure MSG where
  message : Nat
  wParam : Nat
  deriving DecidableEq, Repr

/-- The list box with its `ListBoxModelStrings`: the strings of the model and
the index `GetCurrentSelection()` reports, -1 when nothing is selected. -/
structure ListBox where
  strings : StrVec := []
  currentSelection : Int := -1
  deriving DecidableEq, Repr

/-- `ListBox::GetCount()`: the number of items of the model. -/
def ListBox.GetCount (lb : ListBox) : Int :=
  lb.strings.length

/-- `ListBox::SetCurrentSelection(sel)`: the list box records the index. -/
def ListBox.SetCurrentSelection (lb : ListBox) (sel : Int) : ListBox :=
  { lb with currentSelection := sel }

/-- The members of `CommandPaletteWnd` the session logic reads and writes. -/
structure CommandPaletteWnd where
  win : WindowInfo := {}
  allStrings : StrVec := []
  convertedFilePaths : StrVec := []
  listBox : ListBox := {}
  /-- The text `editQuery->GetText().Get()` yields, `none` for a null pointer. -/
  editQuery : Option CStr := none
  deriving DecidableEq, Repr

/-- A call the palette makes into the rest of the application. -/
inductive Action where
  /-- `HwndSendCommand(hwnd, cmdId)`. -/
  | HwndSendCommand (hwnd : Nat) (cmdId : Int)
  /-- `SelectTabInWindow(tab)`, the tab given by the positions of its window
  in `gWindows` and of the tab in the window. -/
  | SelectTabInWindow (win : Nat) (tab : Nat)
  /-- `LoadDocument(args)` with `args.fileName`, the frame of `args.win`, and
  `args.forceReuse`. -/
  | LoadDocument (fileName : CStr) (hwndFrame : Nat) (forceReuse : Bool)
  /-- `uitask::Post(&SafeDeleteCommandPaletteWnd)`. -/
  | PostSafeDelete
  /-- `delete tmp` in `SafeDeleteCommandPaletteWnd`: the palette window is
  destroyed. -/
  | DeleteCommandPaletteWnd
  /-- `SetActiveWindow(hwnd)`. -/
  | SetActiveWindow (hwnd : Nat)
  deriving DecidableEq, Repr

/-- The process-wide state around a palette window: the windows `gWindows`,
the handle `gHwndToActivateOnClose` (0 for null), and the calls made so far,
oldest first. -/
structure Process where
  gWindows : List WindowInfo := []
  gHwndToActivateOnClose : Nat := 0
  actions : List Action := []
  deriving DecidableEq, Repr

/-- `CommandPaletteWnd::ScheduleDelete()`. -/
def ScheduleDelete (g : Process) : Process :=
  { g with actions := g.actions ++ [Action.PostSafeDelete] }

/-- The position of the first description equal to `s`. -/
def GetCommandIdByDesc.index (s : CStr) : List CStr → Nat → Option Nat
  | [], _ => none
  | d :: rest, i => if d == s then some i else GetCommandIdByDesc.index s rest (i + 1)

/-- Modelled from the spec: `GetCommandIdByDesc` (Commands.cpp) is missing;
"if it matches a command description exactly": the id of the first
description equal to the string, counted from `CmdFirst + 1` as in
`CollectPaletteStrings`, and -1 when there is none. -/
def GetCommandIdByDesc (c : Commands) (descs : List CStr) (s : CStr) : Int :=
  match GetCommandIdByDesc.index s descs 0 with
  | some i => c.CmdFirst + 1 + (i : Int)
  | none => -1

/-- The lookup loop of `ExecuteCurrentSelection` over the pairs
`(at(2i), at(2i+1))`, `i < Size()/2`, of `convertedFilePaths`: at the first
pair whose second string equals `s`, `s` becomes the first string and
`isFromTab` is set when that string is longer than the second by more than 3.
The result is the final `(s, isFromTab)`. -/
def ExecuteCurrentSelection.lookup (s : CStr) : List CStr → CStr × Bool
  | path :: converted :: rest =>
    if !(converted == s) then ExecuteCurrentSelection.lookup s rest
    else (path, decide (path.length > converted.length + 3))
  | _ => (s, false)

/-- The inner loop of `FindOpenedFile` over the tabs of one window; `i` is the
position of the first tab of the list. -/
def FindOpenedFile.inTabs (sv : CStr) : List TabInfo → Nat → Option Nat
  | [], _ => none
  | tab :: rest, i =>
    if !tab.isDocLoaded then FindOpenedFile.inTabs sv rest (i + 1)
    else if tab.filePath == sv then some i
    else FindOpenedFile.inTabs sv rest (i + 1)

/-- The outer loop of `FindOpenedFile` over the windows; `wi` is the position
of the first window of the list.  A found tab is given by the position of its
window, the window, and the position of the tab in it. -/
def FindOpenedFile.inWindows (sv : CStr) :
    List WindowInfo → Nat → Option (Nat × WindowInfo × Nat)
  | [], _ => none
  | win :: rest, wi =>
    match FindOpenedFile.inTabs sv win.tabs 0 with
    | some ti => some (wi, win, ti)
    | none => FindOpenedFile.inWindows sv rest (wi + 1)

/-- `FindOpenedFile(sv)` over `gWindows`; `none` is the null pointer. -/
def FindOpenedFile (gWindows : List WindowInfo) (sv : CStr) : Option (Nat × WindowInfo × Nat) :=
  FindOpenedFile.inWindows sv gWindows 0

/-- The call `HwndSendCommand(hwnd, cmdId)` as the palette session records
it: the call is appended to the calls made. -/
def HwndSendCommand (hwnd : Nat) (cmdId : Int) (g : Process) : Process :=
  { g with actions := g.actions ++ [Action.HwndSendCommand hwnd cmdId] }

/-- The command branch of `ExecuteCurrentSelection` for the command id
`cmdId`, in source order: for a command of `gCommandsNoActivate` the handle
`gHwndToActivateOnClose` is set to null, then the command is sent to the frame
of the originating window, then the teardown is scheduled.  The call
`HwndSendCommand` is given by its effect `send` on the process state, since
the frame handles the command inside the call. -/
def ExecuteCurrentSelection.command (send : Nat → Int → Process → Process) (E : PolicyEnv)
    (this : CommandPaletteWnd) (cmdId : Int) (g : Process) : Process :=
  let noActivate := __cmdInList cmdId (gCommandsNoActivate E.cmds)
  let g := if noActivate then { g with gHwndToActivateOnClose := 0 } else g
  let g := send this.win.hwndFrame cmdId g
  ScheduleDelete g

/-- `CommandPaletteWnd::ExecuteCurrentSelection()`.  The list box reports
either -1 or the index of one of its items; for any other index the model
leaves the state as it is.  The sent command is recorded in the calls made. -/
def ExecuteCurrentSelection (E : PolicyEnv) (descs : List CStr) (this : CommandPaletteWnd)
    (g : Process) : Process :=
  let sel := this.listBox.currentSelection
  if sel < 0 then g
  else
    match this.listBox.strings.get? sel.toNat with
    | none => g
    | some s =>
      let cmdId := GetCommandIdByDesc E.cmds descs s
      if cmdId ≥ 0 then ExecuteCurrentSelection.command HwndSendCommand E this cmdId g
      else
        let r := ExecuteCurrentSelection.lookup s this.convertedFilePaths
        let s := r.1
        let isFromTab := r.2
        let tab := FindOpenedFile g.gWindows s
        match isFromTab, tab with
        | true, some (wi, tabWin, ti) =>
          let g :=
            if tabWin.currentTab != some ti then
              { g with actions := g.actions ++ [Action.SelectTabInWindow wi ti] }
            else g
          let g := { g with gHwndToActivateOnClose := tabWin.hwndFrame }
          ScheduleDelete g
        | _, _ =>
          let forceReuse := false
          let g := { g with
            actions := g.actions ++ [Action.LoadDocument s this.win.hwndFrame forceReuse] }
          ScheduleDelete g

/-- `CommandPaletteWnd::PreTranslateMessage(msg)`: the window and the process
state after the call, and the returned flag. -/
def PreTranslateMessage (E : PolicyEnv) (descs : List CStr) (this : CommandPaletteWnd)
    (g : Process) (msg : MSG) : CommandPaletteWnd × Process × Bool :=
  if msg.message == WM_KEYDOWN then
    let dir : Int := 0
    if msg.wParam == VK_ESCAPE then (this, ScheduleDelete g, true)
    else if msg.wParam == VK_RETURN then
      (this, ExecuteCurrentSelection E descs this g, true)
    else
      let dir := if msg.wParam == VK_UP then -1 else if msg.wParam == VK_DOWN then 1 else dir
      if dir == 0 then (this, g, false)
      else
        let n := this.listBox.GetCount
        if n == 0 then (this, g, false)
        else
          let currSel := this.listBox.currentSelection
          let sel := currSel + dir
          let sel := if sel < 0 then n - 1 else sel
          let sel := if sel ≥ n then 0 else sel
          ({ this with listBox := this.listBox.SetCurrentSelection sel }, g, false)
  else (this, g, false)

/-- Modelled from the spec: `ListBox::SetModel` (wingui) is missing; the list
box shows the strings of the model, and "else no valid selection": no item is
selected after the content is replaced. -/
def ListBox.SetModel (_lb : ListBox) (strings : StrVec) : ListBox :=
  { strings := strings, currentSelection := -1 }

/-- `CommandPaletteWnd::QueryChanged()`: the model of the list box is reused
as the out-parameter of `FilterStrings`. -/
def QueryChanged (this : CommandPaletteWnd) : CommandPaletteWnd :=
  let filter := this.editQuery
  let m := this.listBox.strings
  let m := FilterStrings this.allStrings filter m
  let listBox := this.listBox.SetModel m
  let listBox := if (m.length : Int) > 0 then listBox.SetCurrentSelection 0 else listBox
  { this with listBox := listBox }

/-- `CommandPaletteWnd::OnDestroy()`. -/
def OnDestroy (g : Process) : Process :=
  ScheduleDelete g

/-- The message id `WM_ACTIVATE` (0x0006). -/
def WM_ACTIVATE : Nat := 6

/-- The activation state `WA_INACTIVE`. -/
def WA_INACTIVE : Nat := 0

/-- The `WM_ACTIVATE` case of `CommandPaletteWnd::WndProc`: on deactivation
the teardown is scheduled and 0 returned (`some`); every other message goes to
`WndProcDefault` (`none`). -/
def WndProc (g : Process) (msg wparam : Nat) : Option (Process × Nat) :=
  if msg == WM_ACTIVATE && wparam == WA_INACTIVE then some (ScheduleDelete g, 0)
  else none

/-- The process-wide palette state: the pointer `gCommandPaletteWnd` (`none`
for null), the number of `CommandPaletteWnd` objects created with `new` and
not yet deleted, and the rest of the process state. -/
structure Session where
  gCommandPaletteWnd : Option CommandPaletteWnd := none
  liveWnds : Nat := 0
  proc : Process := {}
  deriving DecidableEq, Repr

/-- `SafeDeleteCommandPaletteWnd()`. -/
def SafeDeleteCommandPaletteWnd (s : Session) : Session :=
  match s.gCommandPaletteWnd with
  | none => s
  | some _tmp =>
    let s := { s with gCommandPaletteWnd := none }
    let s := { s with
      liveWnds := s.liveWnds - 1
      proc := { s.proc with actions := s.proc.actions ++ [Action.DeleteCommandPaletteWnd] } }
    if s.proc.gHwndToActivateOnClose != 0 then
      let s := { s with
        proc := { s.proc with
          actions := s.proc.actions ++ [Action.SetActiveWindow s.proc.gHwndToActivateOnClose] } }
      { s with proc := { s.proc with gHwndToActivateOnClose := 0 } }
    else s

/-- What the window system answers while `Create` builds the palette: whether
`CreateCustom` produced a window handle, and whether the edit, the list box
and the static control were created. -/
structure CreateResults where
  hwnd : Bool := true
  editQuery : Bool := true
  listBox : Bool := true
  staticHelp : Bool := true
  deriving DecidableEq, Repr

/-- `CommandPaletteWnd::Create(win)`: the corpus is collected, the window and
its three controls are created, and the list box is filled with the unfiltered
corpus.  The result is the window with the returned flag; `none` stands for a
tripped `CrashIf` (a control could not be created).  Layout and positioning
do not touch the modelled members. -/
def CommandPaletteWnd.Create (E : PolicyEnv) (P : PathFns) (A : AppState)
    (cr : CreateResults) (this : CommandPaletteWnd) (win : WindowInfo) :
    Option (CommandPaletteWnd × Bool) :=
  let r := CollectPaletteStrings E P A (this.allStrings, this.convertedFilePaths) win
  let this := { this with allStrings := r.1, convertedFilePaths := r.2 }
  if !cr.hwnd then some (this, false)
  else if !cr.editQuery then none
  else
    let this := { this with editQuery := some [] }
    if !cr.listBox then none
    else
      let m := FilterStrings this.allStrings none []
      let this := { this with listBox := ListBox.SetModel {} m }
      if !cr.staticHelp then none
      else some (this, true)

/-- `RunCommandPallette(win)`; `none` stands for a tripped `CrashIf`: a
session is already live, or the window could not be created.  The font set up
at the start does not touch the modelled state. -/
def RunCommandPallette (E : PolicyEnv) (P : PathFns) (fileStates descs : List CStr)
    (cr : CreateResults) (s : Session) (win : WindowInfo) : Option Session :=
  if s.gCommandPaletteWnd.isSome then none
  else
    let wnd : CommandPaletteWnd := {}
    let s := { s with liveWnds := s.liveWnds + 1 }
    let wnd := { wnd with win := win }
    let A : AppState :=
      { gWindows := s.proc.gWindows, fileStates := fileStates, gCommandDescriptions := descs }
    match CommandPaletteWnd.Create E P A cr wnd win with
    | none => none
    | some (wnd, ok) =>
      if !ok then none
      else
        let s := { s with gCommandPaletteWnd := some wnd }
        some { s with proc := { s.proc with gHwndToActivateOnClose := win.hwndFrame } }

/-- An operation on the palette session: opening the palette from a window
(with what the window system answers), or running the posted teardown. -/
inductive SessionOp where
  | openPalette (win : WindowInfo) (cr : CreateResults)
  | teardown
  deriving DecidableEq, Repr

/-- A sequence of session operations run in order; `none` as soon as an
assertion trips. -/
def runSessionOps (E : PolicyEnv) (P : PathFns) (fileStates descs : List CStr) :
    List SessionOp → Session → Option Session
  | [], s => some s
  | SessionOp.openPalette win cr :: rest, s =>
    match RunCommandPallette E P fileStates descs cr s win with
    | none => none
    | some s => runSessionOps E P fileStates descs rest s
  | SessionOp.teardown :: rest, s =>
    runSessionOps E P fileStates descs rest (SafeDeleteCommandPaletteWnd s)

/-! ## A sample registry

The enumerators and the menu lists live in files outside the sources at hand.
The values below are one admissible instance (distinct, dense ids counted up
from `CmdFirst`, one description per id), used to run the definitions on
concrete inputs. -/

/-- Sample enumerator values: `CmdFirst = 200`, then one id per command. -/
def sampleCmds : Commands :=
  { CmdFirst := 200
    CmdOpenFile := 201
    CmdOpenFolder := 202
    CmdSaveAnnotations := 203
    CmdPrint := 204
    CmdSendByEmail := 205
    CmdExit := 206
    CmdNewWindow := 207
    CmdToggleBookmarks := 208
    CmdToggleScrollbars := 209
    CmdToggleFullscreen := 210
    CmdToggleMenuBar := 211
    CmdCopyLinkTarget := 212
    CmdCopyComment := 213
    CmdCopyImage := 214
    CmdSelectAnnotation := 215
    CmdDeleteAnnotation := 216
    CmdCreateAnnotFirst := 217
    CmdCreateAnnotLast := 218
    CmdFavoriteAdd := 219
    CmdFavoriteDel := 220
    CmdFavoriteToggle := 221
    CmdOptions := 222
    CmdAdvancedOptions := 223
    CmdChangeLanguage := 224
    CmdContributeTranslation := 225
    CmdCheckUpdate := 226
    CmdHelpOpenManualInBrowser := 227
    CmdHelpVisitWebsite := 228
    CmdHelpAbout := 229
    CmdShowLog := 230
    CmdCommandPalette := 231
    CmdOpenSelectedDocument := 232
    CmdPinSelectedDocument := 233
    CmdForgetSelectedDocument := 234
    CmdExpandAll := 235
    CmdCollapseAll := 236
    CmdMoveFrameFocus := 237
    CmdPresentationWhiteBackground := 238
    CmdPresentationBlackBackground := 239
    CmdSaveEmbeddedFile := 240
    CmdCreateShortcutToFile := 241
    CmdOpenWithFirst := 242
    CmdOpenWithLast := 243
    CmdDebugShowLinks := 244
    CmdDebugTestApp := 245
    CmdDebugShowNotif := 246
    CmdDebugCrashMe := 247
    CmdDebugDownloadSymbols := 248
    CmdNone := 249 }

/-- Sample `gCommandDescriptions`: the description of id `CmdFirst + 1 + i` at
position `i`. -/
def sampleDescs : List CStr :=
  [
    "Open File...".toList,
    "Open Folder".toList,
    "Save Annotations to existing PDF".toList,
    "Print Document...".toList,
    "Send Document By Email...".toList,
    "Exit Application".toList,
    "Open New SumatraPDF Window".toList,
    "Toggle Bookmarks".toList,
    "Toggle Scrollbars".toList,
    "Toggle Fullscreen".toList,
    "Toggle Menu Bar".toList,
    "Copy Link Target".toList,
    "Copy Comment".toList,
    "Copy Image".toList,
    "Select Annotation in Editor".toList,
    "Delete Annotation".toList,
    "Create Text Annotation".toList,
    "Create Underline Annotation".toList,
    "Add Favorite".toList,
    "Delete Favorite".toList,
    "Toggle Favorites".toList,
    "Options...".toList,
    "Advanced Options...".toList,
    "Change Language".toList,
    "Contribute Translation".toList,
    "Check For Update".toList,
    "Help: Manual".toList,
    "Help: SumatraPDF Website".toList,
    "Help: About SumatraPDF".toList,
    "Show Logs".toList,
    "Command Palette".toList,
    "Open Selected Document".toList,
    "Pin Selected Document".toList,
    "Remove Selected Document From History".toList,
    "Expand All".toList,
    "Collapse All".toList,
    "Move Frame Focus".toList,
    "Presentation White Background".toList,
    "Presentation Black Background".toList,
    "Save Embedded File...".toList,
    "Create .lnk Shortcut".toList,
    "Open With Acrobat".toList,
    "Open With HTML Help".toList,
    "Debug: Show Links".toList,
    "Debug: Test App".toList,
    "Debug: Show Notification".toList,
    "Debug: Crash Me".toList,
    "Debug: Download Symbols".toList,
    "Do nothing".toList ]

/-- Sample menu lists, each ending with the sentinel 0. -/
def sampleLists : MenuLists :=
  { removeIfAnnotsNotSupported :=
      [toUIntPtr sampleCmds.CmdSaveAnnotations, toUIntPtr sampleCmds.CmdSelectAnnotation,
        toUIntPtr sampleCmds.CmdDeleteAnnotation, 0]
    disableIfNoSelection := [toUIntPtr sampleCmds.CmdCopyComment, 0]
    removeIfNoInternetPerms :=
      [toUIntPtr sampleCmds.CmdCheckUpdate, toUIntPtr sampleCmds.CmdHelpVisitWebsite,
        toUIntPtr sampleCmds.CmdHelpOpenManualInBrowser,
        toUIntPtr sampleCmds.CmdContributeTranslation, 0]
    removeIfNoFullscreenPerms := [toUIntPtr sampleCmds.CmdToggleFullscreen, 0]
    removeIfNoPrefsPerms :=
      [toUIntPtr sampleCmds.CmdOptions, toUIntPtr sampleCmds.CmdAdvancedOptions,
        toUIntPtr sampleCmds.CmdChangeLanguage, toUIntPtr sampleCmds.CmdFavoriteAdd,
        toUIntPtr sampleCmds.CmdFavoriteDel, toUIntPtr sampleCmds.CmdFavoriteToggle, 0]
    removeIfNoDiskAccessPerm :=
      [toUIntPtr sampleCmds.CmdNewWindow, toUIntPtr sampleCmds.CmdOpenFile,
        toUIntPtr sampleCmds.CmdOpenFolder, toUIntPtr sampleCmds.CmdSendByEmail, 0]
    removeIfNoCopyPerms :=
      [toUIntPtr sampleCmds.CmdCopyLinkTarget, toUIntPtr sampleCmds.CmdCopyComment,
        toUIntPtr sampleCmds.CmdCopyImage, 0]
    removeIfChm := [toUIntPtr sampleCmds.CmdToggleBookmarks, 0] }

/-- All six permissions granted. -/
def allPerms : Permissions :=
  { InternetAccess := true, FullscreenAccess := true, SavePreferences := true,
    PrinterAccess := true, DiskAccess := true, CopySelection := true }

/-- Exactly the permissions DiskAccess and SavePreferences granted. -/
def diskAndPrefsPerms : Permissions :=
  { InternetAccess := false, FullscreenAccess := false, SavePreferences := true,
    PrinterAccess := false, DiskAccess := true, CopySelection := false }

/-- A release build (not debug, not pre-release, not plugin) with all
permissions granted, over the sample registry. -/
def sampleEnv : PolicyEnv :=
  { cmds := sampleCmds, lists := sampleLists, perms := allPerms,
    gIsDebugBuild := false, gIsPreReleaseBuild := false, gIsPluginBuild := false,
    hideScrollbars := false }

/-- Exactly DiskAccess and SavePreferences granted, release build, over the
sample registry. -/
def diskAndPrefsEnv : PolicyEnv :=
  { sampleEnv with perms := diskAndPrefsPerms }

/-- Menu lists that tag no command: each array holds its terminator only. -/
def terminatorOnlyLists : MenuLists :=
  { removeIfAnnotsNotSupported := [0], disableIfNoSelection := [0],
    removeIfNoInternetPerms := [0], removeIfNoFullscreenPerms := [0],
    removeIfNoPrefsPerms := [0], removeIfNoDiskAccessPerm := [0],
    removeIfNoCopyPerms := [0], removeIfChm := [0] }

/-- A window showing the start page: no tab, no document loaded, and the
tabs drawn in the title bar (so the menu bar cannot be toggled). -/
def startPageWindow : WindowInfo :=
  { isDocLoaded := false, tabsInTitlebar := true }

/-- An application state with the start-page window only, an empty file
history and the sample descriptions. -/
def startPageApp : AppState :=
  { gWindows := [startPageWindow], fileStates := [], gCommandDescriptions := sampleDescs }

/-- Sample path helpers: the base name is what follows the last separator,
the directory what precedes it. -/
def samplePaths : PathFns :=
  { GetBaseNameTemp := fun s =>
      (s.reverse.takeWhile (fun c => c != '\\' && c != '/')).reverse
    GetDirTemp := fun s =>
      ((s.reverse.dropWhile (fun c => c != '\\' && c != '/')).drop 1).reverse }

/-! ### The command part as the specification words it -/

/-- The descriptions, in table order, of the command ids that satisfy `p`;
`cmdId` is the id of the first description of the list. -/
def descriptionsWhere (p : Int → Bool) : List CStr → Int → List CStr
  | [], _ => []
  | strs :: rest, cmdId =>
    if p cmdId then strs :: descriptionsWhere p rest (cmdId + 1)
    else descriptionsWhere p rest (cmdId + 1)

/-- The command part the scenario of the specification words: the
descriptions of the commands of the whitelist that are not blacklisted,
sorted case-insensitively. -/
def whitelistMinusBlacklistPart (c : Commands) (descs : List CStr) : List CStr :=
  GetSortedViewNoCase
    (descriptionsWhere
      (fun id => decide (id ∈ gDocumentNotOpenWhitelist c)
        && !decide (id ∈ gBlacklistCommandsFromPalette c))
      descs (c.CmdFirst + 1))

/-- A window whose only tab shows a loaded CHM document with a table of
contents. -/
def chmWindow : WindowInfo :=
  { tabs := [{ isDocLoaded := true, filePath := "C:\\docs\\manual.chm".toList }]
    currentTab := some 0
    isDocLoaded := true
    ctrlHacToc := some true
    asChm := true
    hwndFrame := 1 }

/-- An application state with the CHM window only and an empty history. -/
def chmApp : AppState :=
  { gWindows := [chmWindow], fileStates := [], gCommandDescriptions := sampleDescs }

/-- The enumerators `AllowCommand` names in its rules about the loaded
document, the printer and the debug builds; none of them is a command of the
whitelist. -/
def gatedCommands (c : Commands) : List Int :=
  [c.CmdSendByEmail, c.CmdSelectAnnotation, c.CmdDeleteAnnotation, c.CmdSaveAnnotations,
    c.CmdPrint, c.CmdCopyLinkTarget, c.CmdCopyComment, c.CmdCopyImage, c.CmdToggleBookmarks,
    c.CmdToggleScrollbars, c.CmdDebugShowLinks, c.CmdDebugTestApp, c.CmdDebugShowNotif,
    c.CmdDebugCrashMe]

/-- Whether a shared menu list tags the command for a capability that is
lacking when no document is loaded and exactly DiskAccess and SavePreferences
are granted: InternetAccess, FullscreenAccess, CopySelection, a selection,
and (unless the context reports it) annotation support. -/
def taggedForMissingCapability (E : PolicyEnv) (ctx : CommandPaletteBuildCtx) (id : Int) :
    Bool :=
  decide (toUIntPtr id ∈ menuListEntries E.lists.removeIfNoInternetPerms)
  || decide (toUIntPtr id ∈ menuListEntries E.lists.removeIfNoFullscreenPerms)
  || decide (toUIntPtr id ∈ menuListEntries E.lists.removeIfNoCopyPerms)
  || decide (toUIntPtr id ∈ menuListEntries E.lists.disableIfNoSelection)
  || (!ctx.supportsAnnots
      && decide (toUIntPtr id ∈ menuListEntries E.lists.removeIfAnnotsNotSupported))

/-- The commands of the command part in the scenario, in words: in the
whitelist, not in the blacklist; the toggle-menu-bar command only when the
menu bar is togglable; any other command unless it is the update check in a
plugin build or tagged for a lacking capability. -/
def visibleWithoutDocument (E : PolicyEnv) (ctx : CommandPaletteBuildCtx) (id : Int) : Bool :=
  decide (id ∈ gDocumentNotOpenWhitelist E.cmds)
  && !decide (id ∈ gBlacklistCommandsFromPalette E.cmds)
  && (if id = E.cmds.CmdToggleMenuBar then ctx.allowToggleMenuBar
      else !(E.gIsPluginBuild && decide (id = E.cmds.CmdCheckUpdate))
        && !taggedForMissingCapability E ctx id)

/-! ### The visibility rules as the specification lists them -/

/-- The five debug-only commands rule 15 of the specification names. -/
def specDebugOnlyCommands (c : Commands) : List Int :=
  [c.CmdDebugDownloadSymbols, c.CmdDebugTestApp, c.CmdDebugCrashMe, c.CmdDebugShowLinks,
    c.CmdDebugShowNotif]

/-- Whether one of the rules 1 to 15 of the specification denies the command:
the disjunction of the fifteen denials, each as the specification words it,
with membership in a menu list read as membership in its entries. -/
def specDenied (E : PolicyEnv) (ctx : CommandPaletteBuildCtx) (cmdId : Int) : Bool :=
  -- 1. blacklist
  decide (cmdId ∈ gBlacklistCommandsFromPalette E.cmds)
  -- 2. no document loaded, not whitelisted
  || (!ctx.isDocLoaded && !decide (cmdId ∈ gDocumentNotOpenWhitelist E.cmds))
  -- 3. toggle menu bar is exactly the flag
  || (decide (cmdId = E.cmds.CmdToggleMenuBar) && !ctx.allowToggleMenuBar)
  -- 4. annotations not supported
  || (!ctx.supportsAnnots
      && (decide (E.cmds.CmdCreateAnnotFirst ≤ cmdId ∧ cmdId ≤ E.cmds.CmdCreateAnnotLast)
        || decide (toUIntPtr cmdId ∈ menuListEntries E.lists.removeIfAnnotsNotSupported)))
  -- 5. no selection
  || (!ctx.hasSelection
      && decide (toUIntPtr cmdId ∈ menuListEntries E.lists.disableIfNoSelection))
  -- 6. container format
  || (ctx.isChm && decide (toUIntPtr cmdId ∈ menuListEntries E.lists.removeIfChm))
  -- 7. send by email
  || (!ctx.canSendEmail && decide (cmdId = E.cmds.CmdSendByEmail))
  -- 8. annotation under cursor
  || (ctx.annotationUnderCursor.isNone
      && (decide (cmdId = E.cmds.CmdSelectAnnotation)
        || decide (cmdId = E.cmds.CmdDeleteAnnotation)))
  -- 9. save annotations
  || (!ctx.hasUnsavedAnnotations && decide (cmdId = E.cmds.CmdSaveAnnotations))
  -- 10. check for update in a plugin build
  || (E.gIsPluginBuild && decide (cmdId = E.cmds.CmdCheckUpdate))
  -- 11. missing permissions
  || (!E.perms.InternetAccess
      && decide (toUIntPtr cmdId ∈ menuListEntries E.lists.removeIfNoInternetPerms))
  || (!E.perms.FullscreenAccess
      && decide (toUIntPtr cmdId ∈ menuListEntries E.lists.removeIfNoFullscreenPerms))
  || (!E.perms.SavePreferences
      && decide (toUIntPtr cmdId ∈ menuListEntries E.lists.removeIfNoPrefsPerms))
  || (!E.perms.PrinterAccess && decide (cmdId = E.cmds.CmdPrint))
  || (!E.perms.DiskAccess
      && decide (toUIntPtr cmdId ∈ menuListEntries E.lists.removeIfNoDiskAccessPerm))
  || (!E.perms.CopySelection
      && decide (toUIntPtr cmdId ∈ menuListEntries E.lists.removeIfNoCopyPerms))
  -- 12. copy link target, comment, image
  || (!ctx.cursorOnLinkTarget && decide (cmdId = E.cmds.CmdCopyLinkTarget))
  || (!ctx.cursorOnComment && decide (cmdId = E.cmds.CmdCopyComment))
  || (!ctx.cursorOnImage && decide (cmdId = E.cmds.CmdCopyImage))
  -- 13. bookmarks panel
  || (!ctx.hasToc && decide (cmdId = E.cmds.CmdToggleBookmarks))
  -- 14. scrollbars
  || (!E.hideScrollbars && decide (cmdId = E.cmds.CmdToggleScrollbars))
  -- 15. debug-only commands
  || (!(E.gIsDebugBuild || E.gIsPreReleaseBuild)
      && decide (cmdId ∈ specDebugOnlyCommands E.cmds))

/-! ### The file part of the corpus as the specification words it -/

/-- The file paths of the loaded tabs, in window order and, within a window,
in tab order. -/
def loadedTabPaths : List WindowInfo → List CStr
  | [] => []
  | w :: rest =>
    ((w.tabs.filter (fun t => t.isDocLoaded)).map (fun t => t.filePath))
      ++ loadedTabPaths rest

/-- The display strings of the loaded open tabs (the bare file names), in
enumeration order, one per tab. -/
def tabDisplayStrings (P : PathFns) (gWindows : List WindowInfo) : List CStr :=
  (loadedTabPaths gWindows).map P.GetBaseNameTemp

/-- The display strings of the history entries (the "name  (dir)" forms), in
history order, one per entry. -/
def historyDisplayStrings (P : PathFns) (fileStates : List CStr) : List CStr :=
  fileStates.map (ConvertPathForDisplayTemp P)

/-- The strings of a list, each kept at its first occurrence only. -/
def firstOccurrences : List CStr → List CStr
  | [] => []
  | s :: rest => s :: (firstOccurrences rest).filter (fun t => t != s)

/-- The history part of the corpus: the display strings of the history
entries, in history order, that are not already present (neither among the
tab display strings nor earlier in the history). -/
def historyPart (P : PathFns) (A : AppState) : List CStr :=
  (firstOccurrences (historyDisplayStrings P A.fileStates)).filter
    (fun d => !(tabDisplayStrings P A.gWindows).contains d)

/-- The corpus as three parts in order: one display string per loaded open
tab, the history display strings not already present, the sorted descriptions
of the allowed commands. -/
def specCorpus (E : PolicyEnv) (P : PathFns) (A : AppState) (win : WindowInfo) : List CStr :=
  tabDisplayStrings P A.gWindows
    ++ historyPart P A
    ++ GetSortedViewNoCase
        (descriptionsWhere (AllowCommand E (CollectPaletteStrings.buildCtx win))
          A.gCommandDescriptions (E.cmds.CmdFirst + 1))

/-- The pairs `(at(2i), at(2i+1))` of a resolution table; a last string
without a partner is left out. -/
def pairsOf : List CStr → List (CStr × CStr)
  | path :: converted :: rest => (path, converted) :: pairsOf rest
  | _ => []

/-- Some loaded tab of some window has the file path `s`. -/
def hasLoadedTab (gWindows : List WindowInfo) (s : CStr) : Prop :=
  ∃ w ∈ gWindows, ∃ t ∈ w.tabs, t.isDocLoaded = true ∧ t.filePath = s

/-! ### Sample windows and sessions -/

/-- A window whose only tab shows a loaded file named like a command
description. -/
def collidingWindow : WindowInfo :=
  { tabs := [{ isDocLoaded := true, filePath := "C:\\docs\\Open Folder".toList }]
    currentTab := some 0
    isDocLoaded := true
    hwndFrame := 1 }

/-- The colliding window alone, with an empty history. -/
def collidingApp : AppState :=
  { gWindows := [collidingWindow], fileStates := [], gCommandDescriptions := sampleDescs }

/-- A window with two loaded tabs on files of the same name in different
directories. -/
def sameNameWindow : WindowInfo :=
  { tabs := [{ isDocLoaded := true, filePath := "C:\\a\\x.pdf".toList },
             { isDocLoaded := true, filePath := "C:\\b\\x.pdf".toList }]
    currentTab := some 0
    isDocLoaded := true
    hwndFrame := 1 }

/-- The same-name window alone, with one history entry. -/
def sameNameApp : AppState :=
  { gWindows := [sameNameWindow]
    fileStates := ["C:\\docs\\old.pdf".toList]
    gCommandDescriptions := sampleDescs }

/-- Two windows, each with one loaded tab on the same file, the second tab
not current in its window. -/
def twoWindows : List WindowInfo :=
  [ { tabs := [{ isDocLoaded := true, filePath := "C:\\docs\\a.pdf".toList }]
      currentTab := some 0
      isDocLoaded := true
      hwndFrame := 1 },
    { tabs := [{ isDocLoaded := false, filePath := "C:\\docs\\b.pdf".toList },
               { isDocLoaded := true, filePath := "C:\\docs\\a.pdf".toList },
               { isDocLoaded := true, filePath := "C:\\docs\\c.pdf".toList }]
      currentTab := some 1
      isDocLoaded := true
      hwndFrame := 2 } ]

/-- The two windows with one history entry. -/
def twoWindowsApp : AppState :=
  { gWindows := twoWindows
    fileStates := ["C:\\docs\\old.pdf".toList]
    gCommandDescriptions := sampleDescs }

/-- A palette window opened from the first of the two windows: the corpus and
the resolution table as `CollectPaletteStrings` builds them, the unfiltered
list shown, and the item at position `sel` selected. -/
def twoWindowsPalette (sel : Int) : CommandPaletteWnd :=
  let r := CollectPaletteStrings sampleEnv samplePaths twoWindowsApp ([], [])
    (twoWindows.getD 0 {})
  { win := twoWindows.getD 0 {}
    allStrings := r.1
    convertedFilePaths := r.2
    listBox := { strings := r.1, currentSelection := sel } }

/-- The process state when that palette was opened from the first window. -/
def twoWindowsProcess : Process :=
  { gWindows := twoWindows, gHwndToActivateOnClose := 1, actions := [] }

/-- A palette window opened from the same-name window, unfiltered, with the
history entry (position 1 of the list) selected. -/
def sameNamePalette : CommandPaletteWnd :=
  let r := CollectPaletteStrings sampleEnv samplePaths sameNameApp ([], []) sameNameWindow
  { win := sameNameWindow
    allStrings := r.1
    convertedFilePaths := r.2
    listBox := { strings := r.1, currentSelection := 1 } }

/-- A palette window opened from the colliding window, unfiltered, with the
file entry "Open Folder" (position 0 of the list) selected. -/
def collidingPalette : CommandPaletteWnd :=
  let r := CollectPaletteStrings sampleEnv samplePaths collidingApp ([], []) collidingWindow
  { win := collidingWindow
    allStrings := r.1
    convertedFilePaths := r.2
    listBox := { strings := r.1, currentSelection := 0 } }

/-- A sequence of session operations from the first of the two windows: the
palette is opened, torn down (twice, as when two teardowns were posted), and
opened again. -/
def sampleSessionOps : List SessionOp :=
  [ SessionOp.openPalette (twoWindows.getD 0 {}) {},
    SessionOp.teardown,
    SessionOp.teardown,
    SessionOp.openPalette (twoWindows.getD 1 {}) {} ]

/-- A palette whose resolution table holds one history pair, with the
history entry selected. -/
def historyPalette : CommandPaletteWnd :=
  { win := twoWindows.getD 0 {}
    allStrings := ["old.pdf  (C:\\docs)".toList]
    convertedFilePaths := ["C:\\docs\\old.pdf".toList, "old.pdf  (C:\\docs)".toList]
    listBox := { strings := ["old.pdf  (C:\\docs)".toList], currentSelection := 0 } }

/-- The pointer and the count of live palette windows agree. -/
def sessionInv (s : Session) : Prop :=
  s.liveWnds = (if s.gCommandPaletteWnd.isSome then 1 else 0)

/-! ## Theorems: the filter -/

theorem filterStrings_loop_eq (filter : Option CStr) (strs : List CStr) (out : StrVec) :
    FilterStrings.loop filter strs out
      = out ++ strs.filter (fun s => FilterMatches s filter) := by
  induction strs generalizing out with
  | nil => simp [FilterStrings.loop]
  | cons s rest ih =>
    by_cases h : FilterMatches s filter = true
    · simp [FilterStrings.loop, h, ih]
    · simp [FilterStrings.loop, h, ih]

theorem filterStrings_eq_filter (strs : StrVec) (filter : Option CStr) (out : StrVec) :
    FilterStrings strs filter out = strs.filter (fun s => FilterMatches s filter) := by
  simp [FilterStrings, Reset, filterStrings_loop_eq]

theorem emptyOrWhiteSpaceOnly_of_forall (s : CStr) (h : ∀ c ∈ s, IsWs c = true) :
    EmptyOrWhiteSpaceOnly s = true := by
  simpa [EmptyOrWhiteSpaceOnly, List.all_eq_true] using h

/-- C1 (code defect): the query `"open file "` (a trailing blank) over the
corpus `["Open File", "Open Folder", "Save As"]` keeps `"Open Folder"`, which
does not contain the word `file`; and the query `"save xyz as"` keeps
`"Save As..."`, which does not contain the middle word `xyz`.  The flag
`wasWs` is never cleared, so only the word before the first whitespace and
the word after the last one are tested. -/
theorem C1_words_after_first_whitespace_dropped :
    FilterStrings ["Open File".toList, "Open Folder".toList, "Save As".toList]
        (some "open file ".toList) []
      = ["Open File".toList, "Open Folder".toList]
    ∧ specWords "open file ".toList = ["open".toList, "file".toList]
    ∧ ["Open File".toList, "Open Folder".toList, "Save As".toList].filter
        (fun s => specMatches s "open file ".toList) = ["Open File".toList]
    ∧ FilterMatches.splitWords "open file ".toList [] false [] = ["open".toList]
    ∧ FilterStrings ["Save As...".toList, "Save Annotations".toList]
        (some "save xyz as".toList) []
      = ["Save As...".toList]
    ∧ specWords "save xyz as".toList = ["save".toList, "xyz".toList, "as".toList]
    ∧ ContainsI "Save As...".toList "xyz".toList = false
    ∧ FilterMatches.splitWords "save xyz as".toList [] false []
      = ["save".toList, "as".toList] := by
  decide

/-- C2: a null query, an empty query and a query made of whitespace only
keep the whole corpus, whatever the out-parameter held. -/
theorem C2_blank_query_keeps_corpus (C : StrVec) (q : Option CStr) (out : StrVec)
    (hq : q = none ∨ ∃ s, q = some s ∧ ∀ c ∈ s, IsWs c = true) :
    FilterStrings C q out = C := by
  rw [filterStrings_eq_filter]
  apply List.filter_eq_self.mpr
  intro a _
  rcases hq with h | ⟨s, h, hs⟩
  · subst h; rfl
  · subst h
    simp [FilterMatches, emptyOrWhiteSpaceOnly_of_forall s hs]

/-- Witness of C2: a blank-and-tab query and the empty query, over a two-entry corpus. -/
theorem C2_blank_query_keeps_corpus_witness :
    FilterStrings ["Open File".toList, "Save As".toList] (some " \t ".toList)
        ["stale".toList]
      = ["Open File".toList, "Save As".toList]
    ∧ FilterStrings ["Open File".toList, "Save As".toList] (some []) [] 
      = ["Open File".toList, "Save As".toList] :=
  ⟨C2_blank_query_keeps_corpus _ (some " \t ".toList) _
      (Or.inr ⟨" \t ".toList, rfl, by decide⟩),
   C2_blank_query_keeps_corpus _ (some []) _ (Or.inr ⟨[], rfl, by decide⟩)⟩

/-- C3: filtering is idempotent: filtering the result of a filtering again
with the same query changes nothing, whatever the out-parameters held. -/
theorem C3_filter_idempotent (C : StrVec) (q : Option CStr) (out₁ out₂ : StrVec) :
    FilterStrings (FilterStrings C q out₁) q out₂ = FilterStrings C q out₁ := by
  simp only [filterStrings_eq_filter, List.filter_filter, Bool.and_self]

/-- C4: the result of `FilterStrings` is a sublist of the corpus (only
entries of the corpus, in corpus order, none more often than in the corpus),
and it does not depend on what the out-parameter held before the call. -/
theorem C4_filter_sublist_of_corpus (C : StrVec) (q : Option CStr) (out : StrVec) :
    List.Sublist (FilterStrings C q out) C
    ∧ FilterStrings C q out = FilterStrings C q [] := by
  constructor
  · rw [filterStrings_eq_filter]
    exact List.filter_sublist C
  · simp only [filterStrings_eq_filter]

/-! ## Theorems: the visibility policy -/

theorem cmdInList_iff (cmdId : Int) (ids : List Int) :
    __cmdInList cmdId ids = true ↔ cmdId ∈ ids := by
  induction ids with
  | nil => simp [__cmdInList]
  | cons id rest ih =>
    by_cases h : id = cmdId
    · simp [__cmdInList, h]
    · have h2 : ¬ cmdId = id := fun e => h e.symm
      simp [__cmdInList, h, h2, ih]

theorem cmdInList_eq_false_iff (cmdId : Int) (ids : List Int) :
    __cmdInList cmdId ids = false ↔ cmdId ∉ ids := by
  rw [← cmdInList_iff]
  cases __cmdInList cmdId ids <;> simp

theorem scan_iff (id : Nat) (a : List Nat) :
    IsCmdInMenuList.scan id a = true ↔ id ∈ menuListEntries a := by
  induction a with
  | nil => simp [IsCmdInMenuList.scan, menuListEntries]
  | cons x rest ih =>
    by_cases hx : x = 0
    · simp [IsCmdInMenuList.scan, menuListEntries, hx]
    · by_cases hid : x = id
      · simp [IsCmdInMenuList.scan, menuListEntries, hx, hid, List.takeWhile_cons]
      · have hid2 : ¬ id = x := fun e => hid e.symm
        simp only [menuListEntries] at ih
        simp [IsCmdInMenuList.scan, menuListEntries, hx, hid, hid2, List.takeWhile_cons, ih]

theorem isCmdInMenuList_iff (cmdId : Int) (a : List Nat) :
    IsCmdInMenuList cmdId a = true ↔ toUIntPtr cmdId ∈ menuListEntries a := by
  simp [IsCmdInMenuList, scan_iff]

/-- C5: a command id of the blacklist is never allowed, in any context and
for any permissions, build flags and menu lists. -/
theorem C5_blacklisted_never_allowed (E : PolicyEnv) (ctx : CommandPaletteBuildCtx)
    (cmdId : Int) (h : cmdId ∈ gBlacklistCommandsFromPalette E.cmds) :
    AllowCommand E ctx cmdId = false := by
  have hb : __cmdInList cmdId (gBlacklistCommandsFromPalette E.cmds) = true :=
    (cmdInList_iff _ _).mpr h
  simp [AllowCommand, hb]

/-- Witness of C5: the command-palette command itself, with a document loaded. -/
theorem C5_blacklisted_never_allowed_witness :
    AllowCommand sampleEnv
      { isDocLoaded := true, supportsAnnots := true, hasSelection := true,
        allowToggleMenuBar := true }
      sampleCmds.CmdCommandPalette = false :=
  C5_blacklisted_never_allowed sampleEnv _ sampleCmds.CmdCommandPalette (by decide)

/-- C6: with no document loaded, a command id outside the whitelist is never
allowed, whatever the other context flags, permissions and build flags. -/
theorem C6_no_document_needs_whitelist (E : PolicyEnv) (ctx : CommandPaletteBuildCtx)
    (cmdId : Int) (hdoc : ctx.isDocLoaded = false)
    (h : cmdId ∉ gDocumentNotOpenWhitelist E.cmds) :
    AllowCommand E ctx cmdId = false := by
  have hw : __cmdInList cmdId (gDocumentNotOpenWhitelist E.cmds) = false :=
    (cmdInList_eq_false_iff _ _).mpr h
  simp [AllowCommand, hw, hdoc]

/-- Witness of C6: the print command on the start page. -/
theorem C6_no_document_needs_whitelist_witness :
    AllowCommand sampleEnv { isDocLoaded := false, allowToggleMenuBar := true }
      sampleCmds.CmdPrint = false :=
  C6_no_document_needs_whitelist sampleEnv _ sampleCmds.CmdPrint rfl (by decide)

/-- C7: the visibility of the toggle-menu-bar command is exactly the flag
`allowToggleMenuBar`, in every context and for all permissions, build flags
and menu lists, given that its enumerator is none of the blacklisted ones
(the enumerators of `Commands.h` are distinct). -/
theorem C7_toggle_menu_bar_is_flag (E : PolicyEnv) (ctx : CommandPaletteBuildCtx)
    (hnb : E.cmds.CmdToggleMenuBar ∉ gBlacklistCommandsFromPalette E.cmds) :
    AllowCommand E ctx E.cmds.CmdToggleMenuBar = ctx.allowToggleMenuBar := by
  have hb : __cmdInList E.cmds.CmdToggleMenuBar (gBlacklistCommandsFromPalette E.cmds) = false :=
    (cmdInList_eq_false_iff _ _).mpr hnb
  have hw : __cmdInList E.cmds.CmdToggleMenuBar (gDocumentNotOpenWhitelist E.cmds) = true :=
    (cmdInList_iff _ _).mpr (by simp [gDocumentNotOpenWhitelist])
  simp [AllowCommand, hb, hw]

/-- Witness of C7: the flag set with no document loaded, and cleared with one loaded. -/
theorem C7_toggle_menu_bar_is_flag_witness :
    AllowCommand { sampleEnv with perms := diskAndPrefsPerms }
        { isDocLoaded := false, allowToggleMenuBar := true } sampleCmds.CmdToggleMenuBar = true
    ∧ AllowCommand sampleEnv
        { isDocLoaded := true, supportsAnnots := true, allowToggleMenuBar := false }
        sampleCmds.CmdToggleMenuBar = false :=
  ⟨C7_toggle_menu_bar_is_flag { sampleEnv with perms := diskAndPrefsPerms }
      { isDocLoaded := false, allowToggleMenuBar := true } (by decide),
   C7_toggle_menu_bar_is_flag sampleEnv
      { isDocLoaded := true, supportsAnnots := true, allowToggleMenuBar := false } (by decide)⟩

/-- C8 (as stated, refuted): in a release build (neither debug nor
pre-release) the symbol-download command is allowed: with a document loaded,
all permissions granted, annotations supported and a selection present (so
that no menu list is consulted), and also on the start page with no document
loaded, where the whitelist admits it.  Its `case` label is commented out of
the `switch`. -/
theorem C8_download_symbols_allowed_in_release_build :
    sampleEnv.gIsDebugBuild = false ∧ sampleEnv.gIsPreReleaseBuild = false
    ∧ AllowCommand sampleEnv
        { isDocLoaded := true, supportsAnnots := true, hasSelection := true,
          allowToggleMenuBar := true }
        sampleCmds.CmdDebugDownloadSymbols = true
    ∧ AllowCommand sampleEnv { isDocLoaded := false, allowToggleMenuBar := true }
        sampleCmds.CmdDebugDownloadSymbols = true := by
  decide

/-- C8 (amended): when `gIsDebugBuild` and `gIsPreReleaseBuild` are both
false, `AllowCommand` returns false in every context for each of the four
commands of the `switch`: test harness, crash trigger, link-debug overlay and
notification debug (their enumerators being other than `CmdToggleMenuBar`). -/
theorem C8_switch_debug_commands_need_debug_build (E : PolicyEnv)
    (ctx : CommandPaletteBuildCtx) (cmdId : Int)
    (hd : E.gIsDebugBuild = false) (hp : E.gIsPreReleaseBuild = false)
    (hcmd : cmdId = E.cmds.CmdDebugTestApp ∨ cmdId = E.cmds.CmdDebugCrashMe
      ∨ cmdId = E.cmds.CmdDebugShowLinks ∨ cmdId = E.cmds.CmdDebugShowNotif)
    (hmb : cmdId ≠ E.cmds.CmdToggleMenuBar) :
    AllowCommand E ctx cmdId = false := by
  have htail : AllowCommand.tail E ctx cmdId = false := by
    unfold AllowCommand.tail
    split_ifs with h1 h2 h3 h4 h5 h6
    · rfl
    · rfl
    · rfl
    · rfl
    · rfl
    · simp [hd, hp]
    · exfalso
      apply h6
      rcases hcmd with h | h | h | h <;> simp [h]
  simp [AllowCommand, htail, hmb]

/-- Witness of C8 (amended): the crash trigger in a release build. -/
theorem C8_switch_debug_commands_need_debug_build_witness :
    AllowCommand sampleEnv
      { isDocLoaded := true, supportsAnnots := true, hasSelection := true,
        allowToggleMenuBar := true }
      sampleCmds.CmdDebugCrashMe = false :=
  C8_switch_debug_commands_need_debug_build sampleEnv _ sampleCmds.CmdDebugCrashMe rfl rfl
    (Or.inr (Or.inl rfl)) (by decide)

theorem remove_of_missing_permission (E : PolicyEnv) (cmdId : Int)
    (hperm :
      (E.perms.InternetAccess = false
        ∧ toUIntPtr cmdId ∈ menuListEntries E.lists.removeIfNoInternetPerms)
      ∨ (E.perms.FullscreenAccess = false
        ∧ toUIntPtr cmdId ∈ menuListEntries E.lists.removeIfNoFullscreenPerms)
      ∨ (E.perms.SavePreferences = false
        ∧ toUIntPtr cmdId ∈ menuListEntries E.lists.removeIfNoPrefsPerms)
      ∨ (E.perms.DiskAccess = false
        ∧ toUIntPtr cmdId ∈ menuListEntries E.lists.removeIfNoDiskAccessPerm)
      ∨ (E.perms.CopySelection = false
        ∧ toUIntPtr cmdId ∈ menuListEntries E.lists.removeIfNoCopyPerms)
      ∨ (E.perms.PrinterAccess = false ∧ cmdId = E.cmds.CmdPrint)) :
    AllowCommand.remove E cmdId = true := by
  simp only [← isCmdInMenuList_iff] at hperm
  unfold AllowCommand.remove
  rcases hperm with ⟨h1, h2⟩ | ⟨h1, h2⟩ | ⟨h1, h2⟩ | ⟨h1, h2⟩ | ⟨h1, h2⟩ | ⟨h1, h2⟩ <;>
    simp [h1, h2]

/-- C10: a missing permission denies the commands tagged for it
(InternetAccess, FullscreenAccess, SavePreferences, DiskAccess, CopySelection
through their menu lists, PrinterAccess for `CmdPrint`), in every context and
for every command id, given that the toggle-menu-bar command is itself not
tagged for a permission (it is in none of the five lists and is not
`CmdPrint`). -/
theorem C10_missing_permission_denies_tagged (E : PolicyEnv)
    (ctx : CommandPaletteBuildCtx) (cmdId : Int)
    (hperm :
      (E.perms.InternetAccess = false
        ∧ toUIntPtr cmdId ∈ menuListEntries E.lists.removeIfNoInternetPerms)
      ∨ (E.perms.FullscreenAccess = false
        ∧ toUIntPtr cmdId ∈ menuListEntries E.lists.removeIfNoFullscreenPerms)
      ∨ (E.perms.SavePreferences = false
        ∧ toUIntPtr cmdId ∈ menuListEntries E.lists.removeIfNoPrefsPerms)
      ∨ (E.perms.DiskAccess = false
        ∧ toUIntPtr cmdId ∈ menuListEntries E.lists.removeIfNoDiskAccessPerm)
      ∨ (E.perms.CopySelection = false
        ∧ toUIntPtr cmdId ∈ menuListEntries E.lists.removeIfNoCopyPerms)
      ∨ (E.perms.PrinterAccess = false ∧ cmdId = E.cmds.CmdPrint))
    (huntagged :
      toUIntPtr E.cmds.CmdToggleMenuBar ∉ menuListEntries E.lists.removeIfNoInternetPerms
      ∧ toUIntPtr E.cmds.CmdToggleMenuBar
          ∉ menuListEntries E.lists.removeIfNoFullscreenPerms
      ∧ toUIntPtr E.cmds.CmdToggleMenuBar ∉ menuListEntries E.lists.removeIfNoPrefsPerms
      ∧ toUIntPtr E.cmds.CmdToggleMenuBar
          ∉ menuListEntries E.lists.removeIfNoDiskAccessPerm
      ∧ toUIntPtr E.cmds.CmdToggleMenuBar ∉ menuListEntries E.lists.removeIfNoCopyPerms
      ∧ E.cmds.CmdPrint ≠ E.cmds.CmdToggleMenuBar) :
    AllowCommand E ctx cmdId = false := by
  have hrem := remove_of_missing_permission E cmdId hperm
  obtain ⟨u1, u2, u3, u4, u5, u6⟩ := huntagged
  have h3 : cmdId ≠ E.cmds.CmdToggleMenuBar := by
    intro h
    subst h
    rcases hperm with ⟨_, h⟩ | ⟨_, h⟩ | ⟨_, h⟩ | ⟨_, h⟩ | ⟨_, h⟩ | ⟨_, h⟩
    · exact u1 h
    · exact u2 h
    · exact u3 h
    · exact u4 h
    · exact u5 h
    · exact u6 h.symm
  simp [AllowCommand, h3, hrem]

/-- Witness of C10: the update check without InternetAccess on the start
page, and the print command without PrinterAccess with a document loaded. -/
theorem C10_missing_permission_denies_tagged_witness :
    AllowCommand diskAndPrefsEnv { isDocLoaded := false, allowToggleMenuBar := true }
        sampleCmds.CmdCheckUpdate = false
    ∧ AllowCommand diskAndPrefsEnv
        { isDocLoaded := true, supportsAnnots := true, hasSelection := true,
          allowToggleMenuBar := true }
        sampleCmds.CmdPrint = false :=
  ⟨C10_missing_permission_denies_tagged diskAndPrefsEnv
      { isDocLoaded := false, allowToggleMenuBar := true } sampleCmds.CmdCheckUpdate
      (Or.inl ⟨rfl, by decide⟩) (by decide),
   C10_missing_permission_denies_tagged diskAndPrefsEnv
      { isDocLoaded := true, supportsAnnots := true, hasSelection := true,
        allowToggleMenuBar := true }
      sampleCmds.CmdPrint
      (Or.inr (Or.inr (Or.inr (Or.inr (Or.inr ⟨rfl, rfl⟩))))) (by decide)⟩

/-! ## Theorems: the command part of the corpus -/

theorem commands_eq_descriptionsWhere (E : PolicyEnv) (ctx : CommandPaletteBuildCtx)
    (descs : List CStr) (cmdId : Int) (tempStrings : StrVec) :
    CollectPaletteStrings.commands E ctx descs cmdId tempStrings
      = tempStrings ++ descriptionsWhere (AllowCommand E ctx) descs cmdId := by
  induction descs generalizing cmdId tempStrings with
  | nil => simp [CollectPaletteStrings.commands, descriptionsWhere]
  | cons strs rest ih =>
    by_cases h : AllowCommand E ctx cmdId = true
    · simp [CollectPaletteStrings.commands, descriptionsWhere, h, ih]
    · simp [CollectPaletteStrings.commands, descriptionsWhere, h, ih]

theorem descriptionsWhere_congr (p q : Int → Bool) (h : ∀ id, p id = q id)
    (descs : List CStr) (cmdId : Int) :
    descriptionsWhere p descs cmdId = descriptionsWhere q descs cmdId := by
  have hpq : p = q := funext h
  rw [hpq]

theorem lessEqNoCase_total (a b : CStr) :
    lessEqNoCase a b = true ∨ lessEqNoCase b a = true := by
  induction a generalizing b with
  | nil => simp [lessEqNoCase]
  | cons x s ih =>
    cases b with
    | nil => simp [lessEqNoCase]
    | cons y t =>
      simp only [lessEqNoCase]
      split_ifs <;> first | simp | omega | exact ih t

theorem lessEqNoCase_trans (a b c : CStr) (hab : lessEqNoCase a b = true)
    (hbc : lessEqNoCase b c = true) : lessEqNoCase a c = true := by
  induction a generalizing b c with
  | nil => simp [lessEqNoCase]
  | cons x s ih =>
    cases b with
    | nil => simp [lessEqNoCase] at hab
    | cons y t =>
      cases c with
      | nil => simp [lessEqNoCase] at hbc
      | cons z u =>
        simp only [lessEqNoCase] at hab hbc ⊢
        split_ifs at hab hbc ⊢ <;>
          first | rfl | omega | simp at hab | simp at hbc | exact ih t u hab hbc

theorem getSortedViewNoCase_sorted (v : StrVec) :
    List.Sorted (fun a b => lessEqNoCase a b = true) (GetSortedViewNoCase v) := by
  haveI : IsTotal CStr (fun a b => lessEqNoCase a b = true) := ⟨lessEqNoCase_total⟩
  haveI : IsTrans CStr (fun a b => lessEqNoCase a b = true) := ⟨lessEqNoCase_trans⟩
  exact List.sorted_insertionSort _ v

theorem getSortedViewNoCase_perm (v : StrVec) : List.Perm (GetSortedViewNoCase v) v :=
  List.perm_insertionSort _ v

/-! ## Theorems: context flags of the policy -/

theorem buildCtx_isChm (win : WindowInfo) :
    (CollectPaletteStrings.buildCtx win).isChm = false := by
  unfold CollectPaletteStrings.buildCtx
  cases hfix : win.asFixed with
  | none => simp
  | some dm =>
    cases hel : dm.elementAtPos with
    | none => by_cases hpg : dm.pageNoByPoint > 0 <;> simp [hel, hpg]
    | some el => by_cases hpg : dm.pageNoByPoint > 0 <;> simp [hel, hpg]

/-- C11 (code defect): for a window showing a loaded CHM document the context
built by `CollectPaletteStrings` has `isChm` false (the member is never
assigned), and the corpus holds "Toggle Bookmarks", the description of a
command listed in `removeIfChm`. -/
theorem C11_chm_document_not_recorded :
    chmWindow.asChm = true
    ∧ (CollectPaletteStrings.buildCtx chmWindow).isChm = false
    ∧ toUIntPtr sampleCmds.CmdToggleBookmarks ∈ menuListEntries sampleEnv.lists.removeIfChm
    ∧ "Toggle Bookmarks".toList
        ∈ (CollectPaletteStrings sampleEnv samplePaths chmApp ([], []) chmWindow).1
    ∧ AllowCommand sampleEnv
        { CollectPaletteStrings.buildCtx chmWindow with isChm := true }
        sampleCmds.CmdToggleBookmarks = false := by
  refine ⟨rfl, buildCtx_isChm _, ?_, ?_, ?_⟩ <;> decide

/-- C12: when the document format does not support annotations,
`AllowCommand` returns false for every command id of the range
`[CmdCreateAnnotFirst, CmdCreateAnnotLast]` and for every id listed in
`removeIfAnnotsNotSupported`, given that the toggle-menu-bar command is not
itself one of those (its enumerator lies outside the range and the list). -/
theorem C12_no_annotation_support_denies (E : PolicyEnv) (ctx : CommandPaletteBuildCtx)
    (cmdId : Int) (hsup : ctx.supportsAnnots = false)
    (hcmd : (E.cmds.CmdCreateAnnotFirst ≤ cmdId ∧ cmdId ≤ E.cmds.CmdCreateAnnotLast)
      ∨ toUIntPtr cmdId ∈ menuListEntries E.lists.removeIfAnnotsNotSupported)
    (hrange : ¬ (E.cmds.CmdCreateAnnotFirst ≤ E.cmds.CmdToggleMenuBar
      ∧ E.cmds.CmdToggleMenuBar ≤ E.cmds.CmdCreateAnnotLast))
    (hlist : toUIntPtr E.cmds.CmdToggleMenuBar
      ∉ menuListEntries E.lists.removeIfAnnotsNotSupported) :
    AllowCommand E ctx cmdId = false := by
  have hmb : cmdId ≠ E.cmds.CmdToggleMenuBar := by
    intro h
    subst h
    rcases hcmd with h | h
    · exact hrange h
    · exact hlist h
  rw [← isCmdInMenuList_iff] at hcmd
  rcases hcmd with ⟨h1, h2⟩ | h
  · simp [AllowCommand, hmb, hsup, h1, h2]
  · simp [AllowCommand, hmb, hsup, h]

/-- Witness of C12: the first annotation-creation command and the listed
save-annotations command, with a document loaded that has no annotation
support. -/
theorem C12_no_annotation_support_denies_witness :
    AllowCommand sampleEnv { isDocLoaded := true, supportsAnnots := false }
        sampleCmds.CmdCreateAnnotFirst = false
    ∧ AllowCommand sampleEnv
        { isDocLoaded := true, supportsAnnots := false, hasUnsavedAnnotations := true }
        sampleCmds.CmdSaveAnnotations = false :=
  ⟨C12_no_annotation_support_denies sampleEnv _ sampleCmds.CmdCreateAnnotFirst rfl
      (Or.inl (by decide)) (by decide) (by decide),
   C12_no_annotation_support_denies sampleEnv _ sampleCmds.CmdSaveAnnotations rfl
      (Or.inr (by decide)) (by decide) (by decide)⟩

theorem cmdInList_eq_decide (cmdId : Int) (ids : List Int) :
    __cmdInList cmdId ids = decide (cmdId ∈ ids) := by
  by_cases h : cmdId ∈ ids
  · rw [decide_eq_true h]
    exact (cmdInList_iff _ _).mpr h
  · rw [decide_eq_false h]
    exact (cmdInList_eq_false_iff _ _).mpr h

theorem isCmdInMenuList_eq_decide (cmdId : Int) (a : List Nat) :
    IsCmdInMenuList cmdId a = decide (toUIntPtr cmdId ∈ menuListEntries a) := by
  by_cases h : toUIntPtr cmdId ∈ menuListEntries a
  · rw [decide_eq_true h]
    exact (isCmdInMenuList_iff _ _).mpr h
  · rw [decide_eq_false h]
    cases hb : IsCmdInMenuList cmdId a
    · rfl
    · exact absurd ((isCmdInMenuList_iff _ _).mp hb) h

theorem guard_not_false (b c : Bool) (h : b = false → c = false) : (!b && c) = false := by
  cases b
  · simpa using h rfl
  · rfl

theorem guard_false (b c : Bool) (h : b = true → c = false) : (b && c) = false := by
  cases b
  · rfl
  · simpa using h rfl

theorem remove_eq_false (E : PolicyEnv) (cmdId : Int)
    (ga : (!E.perms.InternetAccess
      && IsCmdInMenuList cmdId E.lists.removeIfNoInternetPerms) = false)
    (gb : (!E.perms.FullscreenAccess
      && IsCmdInMenuList cmdId E.lists.removeIfNoFullscreenPerms) = false)
    (gc : (!E.perms.SavePreferences
      && IsCmdInMenuList cmdId E.lists.removeIfNoPrefsPerms) = false)
    (gd : (!E.perms.PrinterAccess && (cmdId == E.cmds.CmdPrint)) = false)
    (ge : (!E.perms.DiskAccess
      && IsCmdInMenuList cmdId E.lists.removeIfNoDiskAccessPerm) = false)
    (gf : (!E.perms.CopySelection
      && IsCmdInMenuList cmdId E.lists.removeIfNoCopyPerms) = false) :
    AllowCommand.remove E cmdId = false := by
  unfold AllowCommand.remove
  cases h1 : E.perms.InternetAccess <;> cases h2 : E.perms.FullscreenAccess <;>
    cases h3 : E.perms.SavePreferences <;> cases h4 : E.perms.PrinterAccess <;>
    cases h5 : E.perms.DiskAccess <;> cases h6 : E.perms.CopySelection <;>
    simp_all

/-- C13: default-allow: a command that none of the rules 1 to 15 of the
specification denies is allowed by `AllowCommand`, in every context. -/
theorem C13_default_allow (E : PolicyEnv) (ctx : CommandPaletteBuildCtx) (cmdId : Int)
    (h : specDenied E ctx cmdId = false) :
    AllowCommand E ctx cmdId = true := by
  simp only [specDenied, Bool.or_eq_false_iff, Bool.and_eq_false_imp, Bool.not_eq_true',
    decide_eq_false_iff_not, decide_eq_true_eq, Bool.or_eq_true, not_or,
    Bool.not_eq_eq_eq_not, Bool.not_true, Option.isNone_iff_eq_none, specDebugOnlyCommands,
    List.mem_cons, List.mem_singleton, List.not_mem_nil, or_false] at h
  simp only [and_assoc] at h
  obtain ⟨h1, h2, h3, h4, h5, h6, h7, h8, h9, h10, h11a, h11b, h11c, h11d, h11e, h11f, h12a,
    h12b, h12c, h13, h14, h15⟩ := h
  have g1 : __cmdInList cmdId (gBlacklistCommandsFromPalette E.cmds) = false := by
    rw [cmdInList_eq_decide, decide_eq_false h1]
  have g2 : (!ctx.isDocLoaded
      && !__cmdInList cmdId (gDocumentNotOpenWhitelist E.cmds)) = false := by
    rw [cmdInList_eq_decide]
    exact guard_not_false _ _ (fun hb => by simp [h2 hb])
  by_cases hmb : cmdId = E.cmds.CmdToggleMenuBar
  · have hallow : ctx.allowToggleMenuBar = true := by simpa using h3 hmb
    simp only [AllowCommand, g1, g2, Bool.false_eq_true, if_false]
    simp [hmb, hallow]
  · have g3 : (cmdId == E.cmds.CmdToggleMenuBar) = false := by simp [hmb]
    have g4 : (!ctx.supportsAnnots
        && ((decide (cmdId ≥ E.cmds.CmdCreateAnnotFirst)
            && decide (cmdId ≤ E.cmds.CmdCreateAnnotLast))
          || IsCmdInMenuList cmdId E.lists.removeIfAnnotsNotSupported)) = false := by
      rw [isCmdInMenuList_eq_decide]
      refine guard_not_false _ _ (fun hb => ?_)
      have := h4 hb
      simp only [decide_eq_false this.2, Bool.or_false, Bool.and_eq_false_imp,
        decide_eq_true_eq, decide_eq_false_iff_not]
      intro hge hle
      exact this.1 ⟨hge, hle⟩
    have g5 : (!ctx.hasSelection
        && IsCmdInMenuList cmdId E.lists.disableIfNoSelection) = false := by
      rw [isCmdInMenuList_eq_decide]
      exact guard_not_false _ _ (fun hb => decide_eq_false (h5 hb))
    have g6 : (ctx.isChm && IsCmdInMenuList cmdId E.lists.removeIfChm) = false := by
      rw [isCmdInMenuList_eq_decide]
      exact guard_false _ _ (fun hb => decide_eq_false (h6 hb))
    have g7 : (!ctx.canSendEmail && (cmdId == E.cmds.CmdSendByEmail)) = false :=
      guard_not_false _ _ (fun hb => by simpa using h7 hb)
    have g8 : (ctx.annotationUnderCursor.isNone
        && ((cmdId == E.cmds.CmdSelectAnnotation)
          || (cmdId == E.cmds.CmdDeleteAnnotation))) = false := by
      refine guard_false _ _ (fun hb => ?_)
      have := h8 (by simpa using hb)
      simp [this.1, this.2]
    have g9 : ((cmdId == E.cmds.CmdSaveAnnotations) && !ctx.hasUnsavedAnnotations) = false := by
      rw [Bool.and_comm]
      exact guard_not_false _ _ (fun hb => by simpa using h9 hb)
    have g10 : ((cmdId == E.cmds.CmdCheckUpdate) && E.gIsPluginBuild) = false := by
      rw [Bool.and_comm]
      exact guard_false _ _ (fun hb => by simpa using h10 hb)
    have g11 : AllowCommand.remove E cmdId = false := by
      have ga : (!E.perms.InternetAccess
          && IsCmdInMenuList cmdId E.lists.removeIfNoInternetPerms) = false := by
        rw [isCmdInMenuList_eq_decide]
        exact guard_not_false _ _ (fun hb => decide_eq_false (h11a hb))
      have gb : (!E.perms.FullscreenAccess
          && IsCmdInMenuList cmdId E.lists.removeIfNoFullscreenPerms) = false := by
        rw [isCmdInMenuList_eq_decide]
        exact guard_not_false _ _ (fun hb => decide_eq_false (h11b hb))
      have gc : (!E.perms.SavePreferences
          && IsCmdInMenuList cmdId E.lists.removeIfNoPrefsPerms) = false := by
        rw [isCmdInMenuList_eq_decide]
        exact guard_not_false _ _ (fun hb => decide_eq_false (h11c hb))
      have gd : (!E.perms.PrinterAccess && (cmdId == E.cmds.CmdPrint)) = false :=
        guard_not_false _ _ (fun hb => by simpa using h11d hb)
      have ge : (!E.perms.DiskAccess
          && IsCmdInMenuList cmdId E.lists.removeIfNoDiskAccessPerm) = false := by
        rw [isCmdInMenuList_eq_decide]
        exact guard_not_false _ _ (fun hb => decide_eq_false (h11e hb))
      have gf : (!E.perms.CopySelection
          && IsCmdInMenuList cmdId E.lists.removeIfNoCopyPerms) = false := by
        rw [isCmdInMenuList_eq_decide]
        exact guard_not_false _ _ (fun hb => decide_eq_false (h11f hb))
      exact remove_eq_false E cmdId ga gb gc gd ge gf
    have g12 : AllowCommand.tail E ctx cmdId = true := by
      have ta : (!ctx.cursorOnLinkTarget && (cmdId == E.cmds.CmdCopyLinkTarget)) = false :=
        guard_not_false _ _ (fun hb => by simpa using h12a hb)
      have tb : (!ctx.cursorOnComment && (cmdId == E.cmds.CmdCopyComment)) = false :=
        guard_not_false _ _ (fun hb => by simpa using h12b hb)
      have tc : (!ctx.cursorOnImage && (cmdId == E.cmds.CmdCopyImage)) = false :=
        guard_not_false _ _ (fun hb => by simpa using h12c hb)
      have td : (!ctx.hasToc && (cmdId == E.cmds.CmdToggleBookmarks)) = false :=
        guard_not_false _ _ (fun hb => by simpa using h13 hb)
      have te : ((cmdId == E.cmds.CmdToggleScrollbars) && !E.hideScrollbars) = false := by
        rw [Bool.and_comm]
        exact guard_not_false _ _ (fun hb => by simpa using h14 hb)
      simp only [AllowCommand.tail, ta, tb, tc, td, te, Bool.false_eq_true, if_false]
      split_ifs with hsw
      · cases hd : E.gIsDebugBuild
        · cases hp : E.gIsPreReleaseBuild
          · have := h15 ⟨hd, hp⟩
            simp [this.2.1, this.2.2.1, this.2.2.2.1, this.2.2.2.2] at hsw
          · rfl
        · rfl
      · rfl
    simp only [AllowCommand, g1, g2, g3, g4, g5, g6, g7, g8, g9, g10, g11, g12,
      Bool.false_eq_true, if_false]

/-- Witness of C13: "Open File..." on the start page with exactly DiskAccess
and SavePreferences granted, and the menu bar command with a document loaded
and the menu bar togglable. -/
theorem C13_default_allow_witness :
    AllowCommand diskAndPrefsEnv { isDocLoaded := false } sampleCmds.CmdOpenFile = true
    ∧ AllowCommand sampleEnv { isDocLoaded := true, allowToggleMenuBar := true }
        sampleCmds.CmdToggleMenuBar = true :=
  ⟨C13_default_allow diskAndPrefsEnv { isDocLoaded := false } sampleCmds.CmdOpenFile
      (by decide),
   C13_default_allow sampleEnv { isDocLoaded := true, allowToggleMenuBar := true }
      sampleCmds.CmdToggleMenuBar (by decide)⟩

/-! ## Theorems: the file part of the corpus -/

theorem appendIfNotExists_of_mem (v : StrVec) (s : CStr) (h : s ∈ v) :
    AppendIfNotExists v s = v := by
  simp [AppendIfNotExists, h]

theorem appendIfNotExists_of_not_mem (v : StrVec) (s : CStr) (h : s ∉ v) :
    AppendIfNotExists v s = v ++ [s] := by
  simp [AppendIfNotExists, h]

theorem mem_appendIfNotExists (v : StrVec) (s t : CStr) :
    t ∈ AppendIfNotExists v s ↔ t ∈ v ∨ t = s := by
  by_cases h : s ∈ v
  · rw [appendIfNotExists_of_mem v s h]
    constructor
    · exact Or.inl
    · rintro (h1 | h1)
      · exact h1
      · exact h1 ▸ h
  · rw [appendIfNotExists_of_not_mem v s h]
    simp

theorem nodup_appendIfNotExists (v : StrVec) (s : CStr) (hv : v.Nodup) :
    (AppendIfNotExists v s).Nodup := by
  by_cases h : s ∈ v
  · rw [appendIfNotExists_of_mem v s h]
    exact hv
  · rw [appendIfNotExists_of_not_mem v s h]
    exact List.Nodup.append hv (List.nodup_singleton s) (List.disjoint_singleton.mpr h)

theorem mem_foldl_appendIfNotExists (l : List CStr) (acc : StrVec) (t : CStr) :
    t ∈ l.foldl AppendIfNotExists acc ↔ t ∈ acc ∨ t ∈ l := by
  induction l generalizing acc with
  | nil => simp
  | cons s rest ih =>
    simp only [List.foldl_cons, ih, mem_appendIfNotExists, List.mem_cons]
    tauto

theorem nodup_foldl_appendIfNotExists (l : List CStr) (acc : StrVec) (hv : acc.Nodup) :
    (l.foldl AppendIfNotExists acc).Nodup := by
  induction l generalizing acc with
  | nil => simpa using hv
  | cons s rest ih =>
    simp only [List.foldl_cons]
    exact ih _ (nodup_appendIfNotExists acc s hv)

theorem foldl_appendIfNotExists_eq (l : List CStr) (acc : StrVec) :
    l.foldl AppendIfNotExists acc
      = acc ++ (firstOccurrences l).filter (fun d => !acc.contains d) := by
  induction l generalizing acc with
  | nil => simp [firstOccurrences]
  | cons s rest ih =>
    simp only [List.foldl_cons, firstOccurrences]
    rw [ih]
    by_cases h : s ∈ acc
    · rw [appendIfNotExists_of_mem acc s h]
      congr 1
      have hc : ¬ ((!acc.contains s) = true) := by simp [h]
      rw [List.filter_cons, if_neg hc, List.filter_filter]
      apply List.filter_congr
      intro x _
      by_cases hx : x ∈ acc
      · simp [hx]
      · have hxs : x ≠ s := fun e => hx (e ▸ h)
        simp [hx, hxs]
    · rw [appendIfNotExists_of_not_mem acc s h]
      have hc : (!acc.contains s) = true := by simp [h]
      rw [List.filter_cons, if_pos hc, List.filter_filter, List.append_assoc,
        List.singleton_append]
      congr 2
      apply List.filter_congr
      intro x _
      by_cases hx : x ∈ acc <;> by_cases hxs : x = s <;> simp [hx, hxs]

theorem addOpenedFiles_loop_strings (P : PathFns) (tabs : List TabInfo) (st : StrVec × StrVec) :
    (AddOpenedFiles.loop P tabs st).1
      = (((tabs.filter (fun t => t.isDocLoaded)).map (fun t => t.filePath)).map
          P.GetBaseNameTemp).foldl AppendIfNotExists st.1 := by
  induction tabs generalizing st with
  | nil => rfl
  | cons tab rest ih =>
    obtain ⟨strings, filePaths⟩ := st
    cases hl : tab.isDocLoaded
    · simp [AddOpenedFiles.loop, hl, ih]
    · simp [AddOpenedFiles.loop, hl, ih]

theorem opened_strings (P : PathFns) (ws : List WindowInfo) (st : StrVec × StrVec) :
    (CollectPaletteStrings.opened P ws st).1
      = (tabDisplayStrings P ws).foldl AppendIfNotExists st.1 := by
  induction ws generalizing st with
  | nil => rfl
  | cons w rest ih =>
    simp only [CollectPaletteStrings.opened, ih, AddOpenedFiles, addOpenedFiles_loop_strings,
      tabDisplayStrings, loadedTabPaths, List.map_append, List.foldl_append]

theorem history_strings (P : PathFns) (fs : List CStr) (st : StrVec × StrVec) :
    (CollectPaletteStrings.history P fs st).1
      = (historyDisplayStrings P fs).foldl AppendIfNotExists st.1 := by
  induction fs generalizing st with
  | nil => rfl
  | cons f rest ih =>
    obtain ⟨strings, filePaths⟩ := st
    simp [CollectPaletteStrings.history, ih, historyDisplayStrings]

theorem collect_strings (E : PolicyEnv) (P : PathFns) (A : AppState) (st : StrVec × StrVec)
    (win : WindowInfo) :
    (CollectPaletteStrings E P A st win).1
      = (CollectPaletteStrings.history P A.fileStates
          (CollectPaletteStrings.opened P A.gWindows st)).1
        ++ CollectPaletteStrings.commandPart E A.gCommandDescriptions
            (CollectPaletteStrings.buildCtx win) := by
  rfl

theorem mem_firstOccurrences (l : List CStr) (x : CStr) :
    x ∈ firstOccurrences l ↔ x ∈ l := by
  induction l with
  | nil => simp [firstOccurrences]
  | cons s rest ih =>
    simp only [firstOccurrences, List.mem_cons, List.mem_filter, ih, bne_iff_ne]
    by_cases hxs : x = s <;> simp [hxs]

theorem opened_strings_from_nil (P : PathFns) (ws : List WindowInfo) (fp : StrVec) :
    (CollectPaletteStrings.opened P ws ([], fp)).1
      = firstOccurrences (tabDisplayStrings P ws) := by
  rw [opened_strings, foldl_appendIfNotExists_eq]
  simp

theorem count_eq_one_of_nodup_of_mem (l : List CStr) (d : CStr) (hn : l.Nodup)
    (hm : d ∈ l) : List.count d l = 1 := by
  induction l with
  | nil => cases hm
  | cons a rest ih =>
    rw [List.nodup_cons] at hn
    rw [List.count_cons]
    by_cases had : a = d
    · subst had
      simp [List.count_eq_zero_of_not_mem hn.1]
    · have hrest : d ∈ rest := by
        rcases List.mem_cons.mp hm with h | h
        · exact absurd h.symm had
        · exact h
      simp [had, ih hn.2 hrest]

/-- C14 (as stated, refuted): a loaded tab on a file named "Open Folder"
contributes the display string "Open Folder", which then occurs twice in the
corpus: once as the file entry, once as the description of the open-folder
command (the descriptions are appended without a duplicate check). -/
theorem C14_file_named_like_command_occurs_twice :
    "Open Folder".toList ∈ tabDisplayStrings samplePaths collidingApp.gWindows
    ∧ List.count "Open Folder".toList
        (CollectPaletteStrings sampleEnv samplePaths collidingApp ([], [])
          collidingWindow).1 = 2 := by
  decide

/-- C14 (amended): every display string contributed by a loaded open tab or
by a history entry occurs exactly once among the file entries of the corpus
(the part before the command descriptions), however many tabs, windows or
history entries produce it; in the whole corpus it occurs once more for each
allowed command whose description equals it. -/
theorem C14_file_display_string_once (E : PolicyEnv) (P : PathFns) (A : AppState)
    (win : WindowInfo) (d : CStr)
    (hd : d ∈ tabDisplayStrings P A.gWindows ∨ d ∈ historyDisplayStrings P A.fileStates) :
    (CollectPaletteStrings E P A ([], []) win).1
      = (CollectPaletteStrings.history P A.fileStates
          (CollectPaletteStrings.opened P A.gWindows ([], []))).1
        ++ CollectPaletteStrings.commandPart E A.gCommandDescriptions
            (CollectPaletteStrings.buildCtx win)
    ∧ List.count d
        (CollectPaletteStrings.history P A.fileStates
          (CollectPaletteStrings.opened P A.gWindows ([], []))).1 = 1
    ∧ List.count d (CollectPaletteStrings E P A ([], []) win).1
      = 1 + List.count d
          (CollectPaletteStrings.commandPart E A.gCommandDescriptions
            (CollectPaletteStrings.buildCtx win)) := by
  have hone : List.count d
      (CollectPaletteStrings.history P A.fileStates
        (CollectPaletteStrings.opened P A.gWindows ([], []))).1 = 1 := by
    rw [history_strings, opened_strings]
    apply count_eq_one_of_nodup_of_mem
    · exact nodup_foldl_appendIfNotExists _ _
        (nodup_foldl_appendIfNotExists _ _ List.nodup_nil)
    · rw [mem_foldl_appendIfNotExists, mem_foldl_appendIfNotExists]
      rcases hd with h | h
      · exact Or.inl (Or.inr h)
      · exact Or.inr h
  refine ⟨collect_strings E P A _ win, hone, ?_⟩
  rw [collect_strings, List.count_append, hone]

/-- Witness of C14 (amended): the file shown in both of two windows. -/
theorem C14_file_display_string_once_witness :
    (CollectPaletteStrings sampleEnv samplePaths twoWindowsApp ([], [])
        (twoWindows.getD 0 {})).1
      = (CollectPaletteStrings.history samplePaths twoWindowsApp.fileStates
          (CollectPaletteStrings.opened samplePaths twoWindowsApp.gWindows ([], []))).1
        ++ CollectPaletteStrings.commandPart sampleEnv twoWindowsApp.gCommandDescriptions
            (CollectPaletteStrings.buildCtx (twoWindows.getD 0 {}))
    ∧ List.count "a.pdf".toList
        (CollectPaletteStrings.history samplePaths twoWindowsApp.fileStates
          (CollectPaletteStrings.opened samplePaths twoWindowsApp.gWindows ([], []))).1 = 1
    ∧ List.count "a.pdf".toList
        (CollectPaletteStrings sampleEnv samplePaths twoWindowsApp ([], [])
          (twoWindows.getD 0 {})).1
      = 1 + List.count "a.pdf".toList
          (CollectPaletteStrings.commandPart sampleEnv twoWindowsApp.gCommandDescriptions
            (CollectPaletteStrings.buildCtx (twoWindows.getD 0 {}))) :=
  C14_file_display_string_once sampleEnv samplePaths twoWindowsApp (twoWindows.getD 0 {})
    "a.pdf".toList (Or.inl (by decide))

/-- C15 (code defect): two loaded tabs on `C:\a\x.pdf` and `C:\b\x.pdf` and
one history entry.  `AddOpenedFiles` appends to the resolution table with
`AppendIfNotExists`, so the second `x.pdf` is not appended and the table has
5 strings; the pairs after it are shifted, the lookup of the history entry's
display string finds nothing, and activating that entry requests a load of
the display string instead of the file path. -/
theorem C15_resolution_table_loses_pairing :
    (CollectPaletteStrings sampleEnv samplePaths sameNameApp ([], []) sameNameWindow).2
      = ["C:\\a\\x.pdf".toList, "x.pdf".toList, "C:\\b\\x.pdf".toList,
          "C:\\docs\\old.pdf".toList, "old.pdf  (C:\\docs)".toList]
    ∧ "old.pdf  (C:\\docs)".toList
        ∈ (CollectPaletteStrings sampleEnv samplePaths sameNameApp ([], []) sameNameWindow).1
    ∧ ExecuteCurrentSelection.lookup "old.pdf  (C:\\docs)".toList
        (CollectPaletteStrings sampleEnv samplePaths sameNameApp ([], []) sameNameWindow).2
      = ("old.pdf  (C:\\docs)".toList, false)
    ∧ (ExecuteCurrentSelection sampleEnv sampleDescs sameNamePalette
        { gWindows := [sameNameWindow], gHwndToActivateOnClose := 1 }).actions
      = [Action.LoadDocument "old.pdf  (C:\\docs)".toList 1 false, Action.PostSafeDelete] := by
  decide

/-- C16 (as stated, refuted): with the same file loaded in two windows the
corpus holds its display string once, not once per loaded tab. -/
theorem C16_tab_strings_not_one_per_tab :
    (CollectPaletteStrings sampleEnv samplePaths twoWindowsApp ([], [])
        (twoWindows.getD 0 {})).1.take 4
      = ["a.pdf".toList, "c.pdf".toList, "old.pdf  (C:\\docs)".toList,
          "Advanced Options...".toList]
    ∧ (specCorpus sampleEnv samplePaths twoWindowsApp (twoWindows.getD 0 {})).take 4
      = ["a.pdf".toList, "a.pdf".toList, "c.pdf".toList, "old.pdf  (C:\\docs)".toList]
    ∧ (CollectPaletteStrings sampleEnv samplePaths twoWindowsApp ([], [])
        (twoWindows.getD 0 {})).1
      ≠ specCorpus sampleEnv samplePaths twoWindowsApp (twoWindows.getD 0 {}) := by
  decide

/-- C16 (amended): the corpus is the concatenation, in this order, of (1) the
display strings of the loaded open tabs in window/tab enumeration order, each
kept at its first occurrence only, (2) the display strings of the history
entries in history order that were not already present, and (3) the
descriptions of exactly the commands for which `AllowCommand` holds, sorted
case-insensitively by description. -/
theorem C16_corpus_is_three_parts (E : PolicyEnv) (P : PathFns) (A : AppState)
    (win : WindowInfo) :
    (CollectPaletteStrings E P A ([], []) win).1
      = firstOccurrences (tabDisplayStrings P A.gWindows)
        ++ historyPart P A
        ++ GetSortedViewNoCase
            (descriptionsWhere (AllowCommand E (CollectPaletteStrings.buildCtx win))
              A.gCommandDescriptions (E.cmds.CmdFirst + 1))
    ∧ List.Sorted (fun a b => lessEqNoCase a b = true)
        (GetSortedViewNoCase
            (descriptionsWhere (AllowCommand E (CollectPaletteStrings.buildCtx win))
              A.gCommandDescriptions (E.cmds.CmdFirst + 1))) := by
  refine ⟨?_, getSortedViewNoCase_sorted _⟩
  rw [collect_strings, history_strings, foldl_appendIfNotExists_eq, opened_strings_from_nil]
  simp only [CollectPaletteStrings.commandPart, commands_eq_descriptionsWhere,
    List.nil_append, historyPart]
  congr 2
  apply List.filter_congr
  intro x _
  simp [mem_firstOccurrences]

/-! ## Theorems: the palette session -/

theorem preTranslateMessage_up (E : PolicyEnv) (descs : List CStr) (this : CommandPaletteWnd)
    (g : Process) :
    PreTranslateMessage E descs this g { message := WM_KEYDOWN, wParam := VK_UP }
      = if this.listBox.GetCount == 0 then (this, g, false)
        else ({ this with
                listBox := this.listBox.SetCurrentSelection
                  (if (if this.listBox.currentSelection + -1 < 0
                        then this.listBox.GetCount - 1
                        else this.listBox.currentSelection + -1) ≥ this.listBox.GetCount
                   then 0
                   else (if this.listBox.currentSelection + -1 < 0
                        then this.listBox.GetCount - 1
                        else this.listBox.currentSelection + -1)) }, g, false) := by
  rfl

theorem preTranslateMessage_down (E : PolicyEnv) (descs : List CStr)
    (this : CommandPaletteWnd) (g : Process) :
    PreTranslateMessage E descs this g { message := WM_KEYDOWN, wParam := VK_DOWN }
      = if this.listBox.GetCount == 0 then (this, g, false)
        else ({ this with
                listBox := this.listBox.SetCurrentSelection
                  (if (if this.listBox.currentSelection + 1 < 0
                        then this.listBox.GetCount - 1
                        else this.listBox.currentSelection + 1) ≥ this.listBox.GetCount
                   then 0
                   else (if this.listBox.currentSelection + 1 < 0
                        then this.listBox.GetCount - 1
                        else this.listBox.currentSelection + 1)) }, g, false) := by
  rfl

theorem clamp_up (c n : Int) (hlo : -1 ≤ c) (hhi : c < n) :
    (if (if c + -1 < 0 then n - 1 else c + -1) ≥ n then 0
      else (if c + -1 < 0 then n - 1 else c + -1))
      = (if c ≤ 0 then n - 1 else c - 1) := by
  split_ifs <;> omega

theorem clamp_down (c n : Int) (hlo : -1 ≤ c) (hhi : c < n) :
    (if (if c + 1 < 0 then n - 1 else c + 1) ≥ n then 0
      else (if c + 1 < 0 then n - 1 else c + 1))
      = (if c = n - 1 then 0 else c + 1) := by
  split_ifs <;> omega

/-- C17: selection navigation wraps.  With `N > 0` items and a current
selection `c` (an item index, or -1 for none), the Up key selects `c - 1`, or
`N - 1` when `c` is 0 or there is no selection; the Down key selects `c + 1`,
or 0 when `c` is `N - 1`; the new selection lies in `[0, N - 1]`; nothing else
changes.  With `N = 0` both keys leave everything unchanged. -/
theorem C17_navigation_wraps (E : PolicyEnv) (descs : List CStr) (this : CommandPaletteWnd)
    (g : Process)
    (hc : -1 ≤ this.listBox.currentSelection
      ∧ this.listBox.currentSelection < this.listBox.GetCount) :
    (0 < this.listBox.GetCount →
      PreTranslateMessage E descs this g { message := WM_KEYDOWN, wParam := VK_UP }
        = ({ this with
              listBox := this.listBox.SetCurrentSelection
                (if this.listBox.currentSelection ≤ 0 then this.listBox.GetCount - 1
                 else this.listBox.currentSelection - 1) }, g, false)
      ∧ PreTranslateMessage E descs this g { message := WM_KEYDOWN, wParam := VK_DOWN }
        = ({ this with
              listBox := this.listBox.SetCurrentSelection
                (if this.listBox.currentSelection = this.listBox.GetCount - 1 then 0
                 else this.listBox.currentSelection + 1) }, g, false)
      ∧ 0 ≤ (PreTranslateMessage E descs this g
              { message := WM_KEYDOWN, wParam := VK_UP }).1.listBox.currentSelection
      ∧ (PreTranslateMessage E descs this g
              { message := WM_KEYDOWN, wParam := VK_UP }).1.listBox.currentSelection
          ≤ this.listBox.GetCount - 1
      ∧ 0 ≤ (PreTranslateMessage E descs this g
              { message := WM_KEYDOWN, wParam := VK_DOWN }).1.listBox.currentSelection
      ∧ (PreTranslateMessage E descs this g
              { message := WM_KEYDOWN, wParam := VK_DOWN }).1.listBox.currentSelection
          ≤ this.listBox.GetCount - 1)
    ∧ (this.listBox.GetCount = 0 →
      PreTranslateMessage E descs this g { message := WM_KEYDOWN, wParam := VK_UP }
        = (this, g, false)
      ∧ PreTranslateMessage E descs this g { message := WM_KEYDOWN, wParam := VK_DOWN }
        = (this, g, false)) := by
  obtain ⟨hlo, hhi⟩ := hc
  have hup := preTranslateMessage_up E descs this g
  have hdown := preTranslateMessage_down E descs this g
  rw [clamp_up _ _ hlo hhi] at hup
  rw [clamp_down _ _ hlo hhi] at hdown
  constructor
  · intro hpos
    have hn : (this.listBox.GetCount == 0) = false := by
      simp only [beq_eq_false_iff_ne, ne_eq]
      omega
    simp only [hn, Bool.false_eq_true, if_false] at hup hdown
    rw [hup, hdown]
    refine ⟨rfl, rfl, ?_, ?_, ?_, ?_⟩ <;>
      simp only [ListBox.SetCurrentSelection] <;> split_ifs <;> omega
  · intro hzero
    have hn : (this.listBox.GetCount == 0) = true := by
      simp only [beq_iff_eq]
      exact hzero
    simp only [hn, if_true] at hup hdown
    exact ⟨hup, hdown⟩

/-- Witness of C17: three items with the first selected. -/
theorem C17_navigation_wraps_witness :
    (PreTranslateMessage sampleEnv sampleDescs
        { listBox := { strings := ["a".toList, "b".toList, "c".toList],
                       currentSelection := 0 } }
        {} { message := WM_KEYDOWN, wParam := VK_UP }).1.listBox.currentSelection = 2 := by
  have h := (C17_navigation_wraps sampleEnv sampleDescs
    { listBox := { strings := ["a".toList, "b".toList, "c".toList],
                   currentSelection := 0 } } {} (by decide)).1 (by decide)
  rw [h.1]
  decide

/-- C18: command activation.  When the selected display string is a command
description (`GetCommandIdByDesc` returns an id `≥ 0`), `ExecuteCurrentSelection`
makes exactly two calls: it sends that id to the frame of the originating
window and schedules the teardown; no tab is selected and no document load
is requested, whatever the resolution table holds, and the windows are left
as they are. -/
theorem C18_command_activation (E : PolicyEnv) (descs : List CStr)
    (this : CommandPaletteWnd) (g : Process) (d : CStr)
    (hsel : 0 ≤ this.listBox.currentSelection)
    (hitem : this.listBox.strings.get? this.listBox.currentSelection.toNat = some d)
    (hcmd : 0 ≤ GetCommandIdByDesc E.cmds descs d) :
    (ExecuteCurrentSelection E descs this g).actions
      = g.actions
        ++ [Action.HwndSendCommand this.win.hwndFrame (GetCommandIdByDesc E.cmds descs d),
            Action.PostSafeDelete]
    ∧ (ExecuteCurrentSelection E descs this g).gWindows = g.gWindows := by
  have hs : ¬ this.listBox.currentSelection < 0 := by omega
  have hc : GetCommandIdByDesc E.cmds descs d ≥ 0 := hcmd
  unfold ExecuteCurrentSelection
  simp only [hs, if_false, hitem, hc, if_true, ExecuteCurrentSelection.command,
    HwndSendCommand, ScheduleDelete]
  cases __cmdInList (GetCommandIdByDesc E.cmds descs d) (gCommandsNoActivate E.cmds) <;>
    simp

/-- Witness of C18: the selected string "Open Folder" is the display string
of an open file and the description of a command; the command is sent. -/
theorem C18_command_activation_witness :
    ExecuteCurrentSelection.lookup "Open Folder".toList collidingPalette.convertedFilePaths
      = ("C:\\docs\\Open Folder".toList, true)
    ∧ (ExecuteCurrentSelection sampleEnv sampleDescs collidingPalette
        { gWindows := [collidingWindow], gHwndToActivateOnClose := 1 }).actions
      = [] ++ [Action.HwndSendCommand collidingPalette.win.hwndFrame
                (GetCommandIdByDesc sampleEnv.cmds sampleDescs "Open Folder".toList),
              Action.PostSafeDelete] :=
  ⟨by decide,
   (C18_command_activation sampleEnv sampleDescs collidingPalette
      { gWindows := [collidingWindow], gHwndToActivateOnClose := 1 } "Open Folder".toList
      (by decide) (by decide) (by decide)).1⟩

/-- C19 (as stated, refuted): for the history pair
`("C:\docs\old.pdf", "old.pdf  (C:\docs)")` the path is not longer than the
display string plus 3, yet the entry is classified as from history; for the
tab pair `("C:\docs\a.pdf", "a.pdf")` the path is longer than the display
string plus 3, and the entry is classified as from an open tab. -/
theorem C19_classification_is_the_opposite_test :
    "C:\\docs\\old.pdf".toList.length ≤ "old.pdf  (C:\\docs)".toList.length + 3
    ∧ ExecuteCurrentSelection.lookup "old.pdf  (C:\\docs)".toList
        ["C:\\docs\\old.pdf".toList, "old.pdf  (C:\\docs)".toList]
      = ("C:\\docs\\old.pdf".toList, false)
    ∧ ¬ ("C:\\docs\\a.pdf".toList.length ≤ "a.pdf".toList.length + 3)
    ∧ ExecuteCurrentSelection.lookup "a.pdf".toList
        ["C:\\docs\\a.pdf".toList, "a.pdf".toList]
      = ("C:\\docs\\a.pdf".toList, true) := by
  decide

/-- C19 (amended): when the activated display string `d` is found in the
resolution table with underlying path `p` (the first pair whose second string
is `d`), the entry is treated as coming from an open tab exactly when the
path is longer than the display string by more than 3,
`len(p) > len(d) + 3`, and as coming from history otherwise. -/
theorem C19_from_tab_iff_path_longer (table : List CStr) (d p : CStr)
    (hfound : (pairsOf table).find? (fun pr => pr.2 == d) = some (p, d)) :
    ExecuteCurrentSelection.lookup d table = (p, decide (p.length > d.length + 3)) := by
  induction table using pairsOf.induct with
  | case1 path converted rest ih =>
    simp only [pairsOf, List.find?_cons] at hfound
    by_cases hcd : converted = d
    · subst hcd
      simp only [beq_self_eq_true, Option.some.injEq, Prod.mk.injEq, and_true] at hfound
      subst hfound
      simp [ExecuteCurrentSelection.lookup]
    · have hb : (converted == d) = false := by simpa using hcd
      simp only [hb] at hfound
      simp only [ExecuteCurrentSelection.lookup, hb, Bool.not_false, if_true]
      exact ih hfound
  | case2 t hne =>
    have hnil : pairsOf t = [] := by
      unfold pairsOf
      split
      · exact absurd rfl (hne _ _ _)
      · rfl
    rw [hnil] at hfound
    cases hfound

/-- Witness of C19 (amended): a table of one tab pair and one history pair,
looked up at the history display string. -/
theorem C19_from_tab_iff_path_longer_witness :
    ExecuteCurrentSelection.lookup "old.pdf  (C:\\docs)".toList
        ["C:\\docs\\a.pdf".toList, "a.pdf".toList,
          "C:\\docs\\old.pdf".toList, "old.pdf  (C:\\docs)".toList]
      = ("C:\\docs\\old.pdf".toList,
          decide ("C:\\docs\\old.pdf".toList.length
            > "old.pdf  (C:\\docs)".toList.length + 3)) :=
  C19_from_tab_iff_path_longer _ _ _ (by decide)

theorem inTabs_some (sv : CStr) (tabs : List TabInfo) (i ti : Nat)
    (h : FindOpenedFile.inTabs sv tabs i = some ti) :
    i ≤ ti ∧ ∃ t, tabs.get? (ti - i) = some t ∧ t.isDocLoaded = true ∧ t.filePath = sv := by
  induction tabs generalizing i with
  | nil => simp [FindOpenedFile.inTabs] at h
  | cons tab rest ih =>
    unfold FindOpenedFile.inTabs at h
    cases hl : tab.isDocLoaded
    · simp only [hl, Bool.not_false, if_true] at h
      obtain ⟨hle, t, ht, hp⟩ := ih (i + 1) h
      refine ⟨by omega, t, ?_, hp⟩
      have : ti - i = (ti - (i + 1)) + 1 := by omega
      rw [this, List.get?_cons_succ]
      exact ht
    · simp only [hl, Bool.not_true, Bool.false_eq_true, if_false] at h
      by_cases hp : tab.filePath = sv
      · simp only [hp, beq_self_eq_true, if_true, Option.some.injEq] at h
        subst h
        exact ⟨le_refl _, tab, by simp, hl, hp⟩
      · have hb : (tab.filePath == sv) = false := by simpa using hp
        simp only [hb, Bool.false_eq_true, if_false] at h
        obtain ⟨hle, t, ht, hp2⟩ := ih (i + 1) h
        refine ⟨by omega, t, ?_, hp2⟩
        have : ti - i = (ti - (i + 1)) + 1 := by omega
        rw [this, List.get?_cons_succ]
        exact ht

theorem inTabs_none (sv : CStr) (tabs : List TabInfo) (i : Nat) :
    FindOpenedFile.inTabs sv tabs i = none
      ↔ ∀ t ∈ tabs, ¬ (t.isDocLoaded = true ∧ t.filePath = sv) := by
  induction tabs generalizing i with
  | nil => simp [FindOpenedFile.inTabs]
  | cons tab rest ih =>
    unfold FindOpenedFile.inTabs
    cases hl : tab.isDocLoaded
    · simp [hl, ih]
    · by_cases hp : tab.filePath = sv
      · simp [hl, hp]
      · simp [hl, hp, ih]

theorem inWindows_some (sv : CStr) (ws : List WindowInfo) (k wi ti : Nat) (w : WindowInfo)
    (h : FindOpenedFile.inWindows sv ws k = some (wi, w, ti)) :
    k ≤ wi ∧ ws.get? (wi - k) = some w
      ∧ ∃ t, w.tabs.get? ti = some t ∧ t.isDocLoaded = true ∧ t.filePath = sv := by
  induction ws generalizing k with
  | nil => simp [FindOpenedFile.inWindows] at h
  | cons win rest ih =>
    unfold FindOpenedFile.inWindows at h
    cases hin : FindOpenedFile.inTabs sv win.tabs 0 with
    | some tj =>
      simp only [hin, Option.some.injEq, Prod.mk.injEq] at h
      obtain ⟨h1, h2, h3⟩ := h
      subst h1 h2 h3
      obtain ⟨_, t, ht, hp⟩ := inTabs_some sv win.tabs 0 tj hin
      exact ⟨le_refl _, by simp, t, by simpa using ht, hp⟩
    | none =>
      simp only [hin] at h
      obtain ⟨hle, hw, ht⟩ := ih (k + 1) h
      refine ⟨by omega, ?_, ht⟩
      have : wi - k = (wi - (k + 1)) + 1 := by omega
      rw [this, List.get?_cons_succ]
      exact hw

theorem inWindows_none (sv : CStr) (ws : List WindowInfo) (k : Nat) :
    FindOpenedFile.inWindows sv ws k = none ↔ ¬ hasLoadedTab ws sv := by
  induction ws generalizing k with
  | nil => simp [FindOpenedFile.inWindows, hasLoadedTab]
  | cons win rest ih =>
    unfold FindOpenedFile.inWindows
    cases hin : FindOpenedFile.inTabs sv win.tabs 0 with
    | some tj =>
      obtain ⟨_, t, ht, hl, hp⟩ := inTabs_some sv win.tabs 0 tj hin
      have hmem : t ∈ win.tabs := List.get?_mem ht
      simp only [false_iff, not_not, reduceCtorEq]
      exact ⟨win, List.mem_cons_self _ _, t, hmem, hl, hp⟩
    | none =>
      have hnone := (inTabs_none sv win.tabs 0).mp hin
      simp only [ih (k + 1)]
      unfold hasLoadedTab
      constructor
      · rintro h ⟨w, hw, t, ht, hl, hp⟩
        rcases List.mem_cons.mp hw with e | e
        · subst e
          exact hnone t ht ⟨hl, hp⟩
        · exact h ⟨w, e, t, ht, hl, hp⟩
      · rintro h ⟨w, hw, t, ht, hl, hp⟩
        exact h ⟨w, List.mem_cons_of_mem _ hw, t, ht, hl, hp⟩

/-- C20: file activation.  When the selected string `d` is no command
description and the lookup resolves it to `(p, fromTab)`: if the entry is
classified as from an open tab and some loaded open tab has the path `p`,
then such a tab (of window `wi`, at position `ti`) is selected unless it is
already current in its window, the frame of that window becomes the
focus-restoration target, no load is requested, and the teardown is
scheduled; otherwise exactly one load of `p` is requested with `forceReuse`
false for the originating window, no tab is selected, the focus-restoration
target is unchanged, and the teardown is scheduled. -/
theorem C20_file_activation (E : PolicyEnv) (descs : List CStr) (this : CommandPaletteWnd)
    (g : Process) (d p : CStr) (fromTab : Bool)
    (hsel : 0 ≤ this.listBox.currentSelection)
    (hitem : this.listBox.strings.get? this.listBox.currentSelection.toNat = some d)
    (hcmd : GetCommandIdByDesc E.cmds descs d < 0)
    (hlook : ExecuteCurrentSelection.lookup d this.convertedFilePaths = (p, fromTab)) :
    (fromTab = true → hasLoadedTab g.gWindows p →
      ∃ wi w ti t, g.gWindows.get? wi = some w ∧ w.tabs.get? ti = some t
        ∧ t.isDocLoaded = true ∧ t.filePath = p
        ∧ ExecuteCurrentSelection E descs this g
          = { gWindows := g.gWindows
              gHwndToActivateOnClose := w.hwndFrame
              actions := g.actions
                ++ (if w.currentTab = some ti then [] else [Action.SelectTabInWindow wi ti])
                ++ [Action.PostSafeDelete] })
    ∧ (¬ (fromTab = true ∧ hasLoadedTab g.gWindows p) →
      ExecuteCurrentSelection E descs this g
        = { gWindows := g.gWindows
            gHwndToActivateOnClose := g.gHwndToActivateOnClose
            actions := g.actions
              ++ [Action.LoadDocument p this.win.hwndFrame false, Action.PostSafeDelete] }) := by
  have hs : ¬ this.listBox.currentSelection < 0 := by omega
  have hc : ¬ GetCommandIdByDesc E.cmds descs d ≥ 0 := by omega
  constructor
  · intro hft hhas
    cases hfind : FindOpenedFile g.gWindows p with
    | none =>
      exact absurd hhas ((inWindows_none p g.gWindows 0).mp hfind)
    | some r =>
      obtain ⟨wi, w, ti⟩ := r
      obtain ⟨_, hw, t, ht, hl, hp⟩ := inWindows_some p g.gWindows 0 wi ti w hfind
      refine ⟨wi, w, ti, t, by simpa using hw, ht, hl, hp, ?_⟩
      unfold ExecuteCurrentSelection
      simp only [hs, if_false, hitem, hc, hlook, hft, hfind, ScheduleDelete]
      by_cases hcur : w.currentTab = some ti
      · simp [hcur]
      · simp [hcur]
  · intro hnot
    unfold ExecuteCurrentSelection
    simp only [hs, if_false, hitem, hc, hlook, ScheduleDelete]
    cases hft : fromTab
    · simp
    · cases hfind : FindOpenedFile g.gWindows p with
      | none => simp
      | some r =>
        obtain ⟨wi, w, ti⟩ := r
        obtain ⟨_, hw, t, ht, hl, hp⟩ := inWindows_some p g.gWindows 0 wi ti w hfind
        exfalso
        exact hnot ⟨hft, w, List.get?_mem hw, t, List.get?_mem ht, hl, hp⟩

/-- Witness of C20: from the palette of the two windows, activating "c.pdf"
(a loaded tab of the second window, not current there) and activating the
history entry. -/
theorem C20_file_activation_witness :
    (∃ wi w ti t, twoWindowsProcess.gWindows.get? wi = some w ∧ w.tabs.get? ti = some t
        ∧ t.isDocLoaded = true ∧ t.filePath = "C:\\docs\\c.pdf".toList
        ∧ ExecuteCurrentSelection sampleEnv sampleDescs (twoWindowsPalette 1) twoWindowsProcess
          = { gWindows := twoWindowsProcess.gWindows
              gHwndToActivateOnClose := w.hwndFrame
              actions := twoWindowsProcess.actions
                ++ (if w.currentTab = some ti then [] else [Action.SelectTabInWindow wi ti])
                ++ [Action.PostSafeDelete] })
    ∧ ExecuteCurrentSelection sampleEnv sampleDescs (twoWindowsPalette 2) twoWindowsProcess
      = { gWindows := twoWindowsProcess.gWindows
          gHwndToActivateOnClose := twoWindowsProcess.gHwndToActivateOnClose
          actions := twoWindowsProcess.actions
            ++ [Action.LoadDocument "C:\\docs\\old.pdf".toList
                  (twoWindowsPalette 2).win.hwndFrame false,
                Action.PostSafeDelete] } :=
  ⟨(C20_file_activation sampleEnv sampleDescs (twoWindowsPalette 1) twoWindowsProcess
      "c.pdf".toList "C:\\docs\\c.pdf".toList true (by decide) (by decide) (by decide)
      (by decide)).1 rfl
      ⟨twoWindows.getD 1 {}, by decide,
        { isDocLoaded := true, filePath := "C:\\docs\\c.pdf".toList }, by decide, rfl, rfl⟩,
   (C20_file_activation sampleEnv sampleDescs (twoWindowsPalette 2) twoWindowsProcess
      "old.pdf  (C:\\docs)".toList "C:\\docs\\old.pdf".toList false (by decide) (by decide)
      (by decide) (by decide)).2 (fun h => absurd h.1 (by decide))⟩

/-! ## Theorems: query change, activation outcomes, teardown -/

/-- C21: activating with no selection is a no-op: when the list box reports
an index below 0, `ExecuteCurrentSelection` leaves the process state as it
is: no command sent, no tab selected, no load requested, the
focus-restoration target unchanged, no teardown scheduled. -/
theorem C21_no_selection_is_noop (E : PolicyEnv) (descs : List CStr)
    (this : CommandPaletteWnd) (g : Process) (hsel : this.listBox.currentSelection < 0) :
    ExecuteCurrentSelection E descs this g = g := by
  unfold ExecuteCurrentSelection
  simp only [hsel, if_true]

/-- Witness of C21: the palette of the two windows with nothing selected. -/
theorem C21_no_selection_is_noop_witness :
    ExecuteCurrentSelection sampleEnv sampleDescs (twoWindowsPalette (-1)) twoWindowsProcess
      = twoWindowsProcess :=
  C21_no_selection_is_noop sampleEnv sampleDescs (twoWindowsPalette (-1)) twoWindowsProcess
    (by decide)

/-- C22: on a query change the list becomes `FilterStrings(allStrings, query)`
computed from the full corpus (whatever the list held before), the full
corpus and the other members are unchanged, and the selection is index 0
whenever the new list is non-empty. -/
theorem C22_query_changed_refilters_corpus (this : CommandPaletteWnd) :
    (QueryChanged this).listBox.strings = FilterStrings this.allStrings this.editQuery []
    ∧ (QueryChanged this).allStrings = this.allStrings
    ∧ ((QueryChanged this).listBox.strings ≠ [] →
        (QueryChanged this).listBox.currentSelection = 0)
    ∧ (QueryChanged this).convertedFilePaths = this.convertedFilePaths
    ∧ (QueryChanged this).editQuery = this.editQuery
    ∧ (QueryChanged this).win = this.win := by
  have hstr : (QueryChanged this).listBox.strings
      = FilterStrings this.allStrings this.editQuery [] := by
    unfold QueryChanged
    simp only [ListBox.SetModel, ListBox.SetCurrentSelection]
    split_ifs <;> simp only [filterStrings_eq_filter]
  refine ⟨hstr, rfl, ?_, rfl, rfl, rfl⟩
  intro hne
  have hlen : ((FilterStrings this.allStrings this.editQuery this.listBox.strings).length : Int)
      > 0 := by
    rw [hstr] at hne
    have : FilterStrings this.allStrings this.editQuery this.listBox.strings
        = FilterStrings this.allStrings this.editQuery [] := by
      simp only [filterStrings_eq_filter]
    rw [this]
    have hpos := List.length_pos.mpr hne
    omega
  unfold QueryChanged
  simp only [hlen, if_true, ListBox.SetModel, ListBox.SetCurrentSelection]

theorem executeCurrentSelection_command (E : PolicyEnv) (descs : List CStr)
    (this : CommandPaletteWnd) (g : Process) (d : CStr)
    (hsel : 0 ≤ this.listBox.currentSelection)
    (hitem : this.listBox.strings.get? this.listBox.currentSelection.toNat = some d)
    (hcmd : 0 ≤ GetCommandIdByDesc E.cmds descs d) :
    ExecuteCurrentSelection E descs this g
      = ExecuteCurrentSelection.command HwndSendCommand E this
          (GetCommandIdByDesc E.cmds descs d) g := by
  have hs : ¬ this.listBox.currentSelection < 0 := by omega
  have hc : GetCommandIdByDesc E.cmds descs d ≥ 0 := hcmd
  unfold ExecuteCurrentSelection
  simp only [hs, if_false, hitem, hc, if_true]

/-- C23: no-activate commands suppress focus restoration.  For an activated
command of `gCommandsNoActivate`, whatever the frame does with the command
when it is sent, the send runs on the state in which `gHwndToActivateOnClose`
is already null, so a teardown that runs during the send activates no window;
the handle is null after the activation, and the teardown that follows only
destroys the window, activating none.  For every other command the send runs
on the unchanged state and the activation leaves the handle as it was. -/
theorem C23_no_activate_suppresses_focus_restoration (E : PolicyEnv) (descs : List CStr)
    (this : CommandPaletteWnd) (g : Process) (d : CStr)
    (hsel : 0 ≤ this.listBox.currentSelection)
    (hitem : this.listBox.strings.get? this.listBox.currentSelection.toNat = some d)
    (hcmd : 0 ≤ GetCommandIdByDesc E.cmds descs d) :
    ExecuteCurrentSelection E descs this g
      = ExecuteCurrentSelection.command HwndSendCommand E this
          (GetCommandIdByDesc E.cmds descs d) g
    ∧ (GetCommandIdByDesc E.cmds descs d ∈ gCommandsNoActivate E.cmds →
        (∀ send : Nat → Int → Process → Process,
          ExecuteCurrentSelection.command send E this (GetCommandIdByDesc E.cmds descs d) g
            = ScheduleDelete
                (send this.win.hwndFrame (GetCommandIdByDesc E.cmds descs d)
                  { g with gHwndToActivateOnClose := 0 }))
        ∧ (∀ live : Nat,
            (ExecuteCurrentSelection.command
              (fun _ _ p =>
                (SafeDeleteCommandPaletteWnd
                  { gCommandPaletteWnd := some this, liveWnds := live, proc := p }).proc)
              E this (GetCommandIdByDesc E.cmds descs d) g).actions
            = g.actions ++ [Action.DeleteCommandPaletteWnd, Action.PostSafeDelete])
        ∧ (ExecuteCurrentSelection E descs this g).gHwndToActivateOnClose = 0
        ∧ ∀ live : Nat,
            (SafeDeleteCommandPaletteWnd
              { gCommandPaletteWnd := some this, liveWnds := live,
                proc := ExecuteCurrentSelection E descs this g }).proc.actions
            = (ExecuteCurrentSelection E descs this g).actions
              ++ [Action.DeleteCommandPaletteWnd])
    ∧ (GetCommandIdByDesc E.cmds descs d ∉ gCommandsNoActivate E.cmds →
        (∀ send : Nat → Int → Process → Process,
          ExecuteCurrentSelection.command send E this (GetCommandIdByDesc E.cmds descs d) g
            = ScheduleDelete
                (send this.win.hwndFrame (GetCommandIdByDesc E.cmds descs d) g))
        ∧ (ExecuteCurrentSelection E descs this g).gHwndToActivateOnClose
          = g.gHwndToActivateOnClose) := by
  have hexec := executeCurrentSelection_command E descs this g d hsel hitem hcmd
  refine ⟨hexec, ?_, ?_⟩
  · intro hin
    have hb := (cmdInList_iff _ _).mpr hin
    have hsend : ∀ send : Nat → Int → Process → Process,
        ExecuteCurrentSelection.command send E this (GetCommandIdByDesc E.cmds descs d) g
          = ScheduleDelete
              (send this.win.hwndFrame (GetCommandIdByDesc E.cmds descs d)
                { g with gHwndToActivateOnClose := 0 }) := by
      intro send
      simp only [ExecuteCurrentSelection.command, hb, if_true]
    have h1 : (ExecuteCurrentSelection E descs this g).gHwndToActivateOnClose = 0 := by
      rw [hexec, hsend]
      simp only [ScheduleDelete, HwndSendCommand]
    refine ⟨hsend, ?_, h1, ?_⟩
    · intro live
      rw [hsend]
      simp [ScheduleDelete, SafeDeleteCommandPaletteWnd]
    · intro live
      simp only [SafeDeleteCommandPaletteWnd, h1, bne_self_eq_false, Bool.false_eq_true,
        if_false]
  · intro hnin
    have hb := (cmdInList_eq_false_iff _ _).mpr hnin
    have hsend : ∀ send : Nat → Int → Process → Process,
        ExecuteCurrentSelection.command send E this (GetCommandIdByDesc E.cmds descs d) g
          = ScheduleDelete
              (send this.win.hwndFrame (GetCommandIdByDesc E.cmds descs d) g) := by
      intro send
      simp only [ExecuteCurrentSelection.command, hb, Bool.false_eq_true, if_false]
    refine ⟨hsend, ?_⟩
    rw [hexec, hsend]
    simp only [ScheduleDelete, HwndSendCommand]

/-- Witness of C23: from the palette of the two windows, "Change Language" (a
no-activate command, position 4) and "Advanced Options..." (position 3); a
teardown that runs while the command is sent activates no window for the
former and the originating window for the latter. -/
theorem C23_no_activate_suppresses_focus_restoration_witness :
    (ExecuteCurrentSelection sampleEnv sampleDescs (twoWindowsPalette 4)
        twoWindowsProcess).gHwndToActivateOnClose = 0
    ∧ (ExecuteCurrentSelection sampleEnv sampleDescs (twoWindowsPalette 3)
        twoWindowsProcess).gHwndToActivateOnClose
      = twoWindowsProcess.gHwndToActivateOnClose
    ∧ (ExecuteCurrentSelection.command
          (fun _ _ p =>
            (SafeDeleteCommandPaletteWnd
              { gCommandPaletteWnd := some (twoWindowsPalette 4), liveWnds := 1,
                proc := p }).proc)
          sampleEnv (twoWindowsPalette 4)
          (GetCommandIdByDesc sampleEnv.cmds sampleDescs "Change Language".toList)
          twoWindowsProcess).actions
      = twoWindowsProcess.actions ++ [Action.DeleteCommandPaletteWnd, Action.PostSafeDelete]
    ∧ (ExecuteCurrentSelection.command
          (fun _ _ p =>
            (SafeDeleteCommandPaletteWnd
              { gCommandPaletteWnd := some (twoWindowsPalette 3), liveWnds := 1,
                proc := p }).proc)
          sampleEnv (twoWindowsPalette 3)
          (GetCommandIdByDesc sampleEnv.cmds sampleDescs "Advanced Options...".toList)
          twoWindowsProcess).actions
      = [Action.DeleteCommandPaletteWnd, Action.SetActiveWindow 1, Action.PostSafeDelete] :=
  ⟨((C23_no_activate_suppresses_focus_restoration sampleEnv sampleDescs (twoWindowsPalette 4)
      twoWindowsProcess "Change Language".toList (by decide) (by decide)
      (by decide)).2.1 (by decide)).2.2.1,
   ((C23_no_activate_suppresses_focus_restoration sampleEnv sampleDescs (twoWindowsPalette 3)
      twoWindowsProcess "Advanced Options...".toList (by decide) (by decide)
      (by decide)).2.2 (by decide)).2,
   ((C23_no_activate_suppresses_focus_restoration sampleEnv sampleDescs (twoWindowsPalette 4)
      twoWindowsProcess "Change Language".toList (by decide) (by decide)
      (by decide)).2.1 (by decide)).2.1 1,
   by decide⟩

theorem sessionInv_safeDelete (s : Session) (h : sessionInv s) :
    sessionInv (SafeDeleteCommandPaletteWnd s) := by
  unfold sessionInv at h ⊢
  unfold SafeDeleteCommandPaletteWnd
  cases hw : s.gCommandPaletteWnd with
  | none => simpa [hw] using h
  | some w =>
    simp only [hw, Option.isSome_some, if_true] at h
    by_cases hh : (s.proc.gHwndToActivateOnClose != 0) = true
    · simp [hh, h]
    · simp [hh, h]

theorem runCommandPallette_some (E : PolicyEnv) (P : PathFns) (fileStates descs : List CStr)
    (cr : CreateResults) (s s' : Session) (win : WindowInfo)
    (h : RunCommandPallette E P fileStates descs cr s win = some s') :
    s.gCommandPaletteWnd = none ∧ s'.gCommandPaletteWnd.isSome = true
      ∧ s'.liveWnds = s.liveWnds + 1
      ∧ s'.proc.gHwndToActivateOnClose = win.hwndFrame := by
  unfold RunCommandPallette at h
  cases hw : s.gCommandPaletteWnd with
  | some w => simp [hw] at h
  | none =>
    simp only [hw, Option.isSome_none, Bool.false_eq_true, if_false] at h
    split at h
    · cases h
    · rename_i wnd ok _
      cases ok
      · simp at h
      · simp only [Bool.not_true, Bool.false_eq_true, if_false, Option.some.injEq] at h
        subst h
        exact ⟨rfl, rfl, rfl, rfl⟩

theorem sessionInv_run (E : PolicyEnv) (P : PathFns) (fileStates descs : List CStr)
    (ops : List SessionOp) (s0 s : Session) (h0 : sessionInv s0)
    (hrun : runSessionOps E P fileStates descs ops s0 = some s) : sessionInv s := by
  induction ops generalizing s0 with
  | nil =>
    simp only [runSessionOps, Option.some.injEq] at hrun
    exact hrun ▸ h0
  | cons op rest ih =>
    cases op with
    | openPalette win cr =>
      simp only [runSessionOps] at hrun
      cases hopen : RunCommandPallette E P fileStates descs cr s0 win with
      | none => simp [hopen] at hrun
      | some s1 =>
        simp only [hopen] at hrun
        obtain ⟨hnone, hsome, hlive, _⟩ :=
          runCommandPallette_some E P fileStates descs cr s0 s1 win hopen
        apply ih s1 _ hrun
        unfold sessionInv at h0 ⊢
        simp only [hnone, Option.isSome_none, Bool.false_eq_true, if_false] at h0
        simp [hsome, hlive, h0]
    | teardown =>
      simp only [runSessionOps] at hrun
      exact ih _ (sessionInv_safeDelete s0 h0) hrun

/-- C24: at most one palette session is live.  In every state reached from
the initial one (no session) by a sequence of open and teardown operations
that trips no assertion, the number of live palette windows is 0 or 1, and it
is 1 exactly when `gCommandPaletteWnd` is set; there `RunCommandPallette`
trips its assertion when a session is live, and a successful call records
one session with the focus-restoration target set to the frame of the
invoking window. -/
theorem C24_at_most_one_session (E : PolicyEnv) (P : PathFns) (fileStates descs : List CStr)
    (ops : List SessionOp) (s : Session)
    (hrun : runSessionOps E P fileStates descs ops {} = some s) :
    (s.liveWnds = 0 ∨ s.liveWnds = 1)
    ∧ (s.liveWnds = 1 ↔ s.gCommandPaletteWnd.isSome = true)
    ∧ (∀ cr win, s.gCommandPaletteWnd.isSome = true →
        RunCommandPallette E P fileStates descs cr s win = none)
    ∧ (∀ cr win s', RunCommandPallette E P fileStates descs cr s win = some s' →
        s.gCommandPaletteWnd = none ∧ s'.gCommandPaletteWnd.isSome = true
          ∧ s'.liveWnds = 1 ∧ s'.proc.gHwndToActivateOnClose = win.hwndFrame) := by
  have hinv : sessionInv s :=
    sessionInv_run E P fileStates descs ops {} s (by simp [sessionInv]) hrun
  unfold sessionInv at hinv
  refine ⟨?_, ?_, ?_, ?_⟩
  · cases hs : s.gCommandPaletteWnd.isSome <;> simp [hs] at hinv <;> simp [hinv]
  · cases hs : s.gCommandPaletteWnd.isSome <;> simp [hs] at hinv <;> simp [hinv]
  · intro cr win hs
    simp [RunCommandPallette, hs]
  · intro cr win s' hopen
    obtain ⟨hnone, hsome, hlive, hfocus⟩ :=
      runCommandPallette_some E P fileStates descs cr s s' win hopen
    simp only [hnone, Option.isSome_none, Bool.false_eq_true, if_false] at hinv
    exact ⟨hnone, hsome, by omega, hfocus⟩

/-- Witness of C24: open, teardown, teardown, open again from another
window. -/
theorem C24_at_most_one_session_witness :
    ∃ s, runSessionOps sampleEnv samplePaths [] sampleDescs sampleSessionOps {} = some s
      ∧ (s.liveWnds = 0 ∨ s.liveWnds = 1)
      ∧ (s.liveWnds = 1 ↔ s.gCommandPaletteWnd.isSome = true) := by
  cases h : runSessionOps sampleEnv samplePaths [] sampleDescs sampleSessionOps {} with
  | none => exact absurd h (by decide)
  | some s =>
    have hc := C24_at_most_one_session sampleEnv samplePaths [] sampleDescs sampleSessionOps s h
    exact ⟨s, rfl, hc.1, hc.2.1⟩

theorem lookup_of_first_pair (table : List CStr) (d p : CStr)
    (hfound : (pairsOf table).find? (fun pr => pr.2 == d) = some (p, d)) :
    ExecuteCurrentSelection.lookup d table = (p, decide (p.length > d.length + 3)) := by
  induction table using pairsOf.induct with
  | case1 path converted rest ih =>
    simp only [pairsOf, List.find?_cons] at hfound
    by_cases hcd : converted = d
    · subst hcd
      simp only [beq_self_eq_true, Option.some.injEq, Prod.mk.injEq, and_true] at hfound
      subst hfound
      simp [ExecuteCurrentSelection.lookup]
    · have hb : (converted == d) = false := by simpa using hcd
      simp only [hb] at hfound
      simp only [ExecuteCurrentSelection.lookup, hb, Bool.not_false, if_true]
      exact ih hfound
  | case2 t hne =>
    have hnil : pairsOf t = [] := by
      unfold pairsOf
      split
      · exact absurd rfl (hne _ _ _)
      · rfl
    rw [hnil] at hfound
    cases hfound

theorem length_convertPathForDisplayTemp (P : PathFns) (p : CStr) :
    (ConvertPathForDisplayTemp P p).length
      = (P.GetBaseNameTemp p).length + (P.GetDirTemp p).length + 4 := by
  simp only [ConvertPathForDisplayTemp, List.length_append]
  have h1 : "  (".toList.length = 3 := by decide
  have h2 : ")".toList.length = 1 := by decide
  omega

/-- C25: the heuristic errs only toward a new tab.  For a history path `p`
with display form `d = base(p) ++ "  (" ++ dir(p) ++ ")"` and
`len(p) ≤ len(base(p)) + len(dir(p)) + 1`, the from-tab test
`len(p) > len(d) + 3` is false; so when the selected string `d` (no command
description) resolves to the pair `(p, d)`, the entry is classified as from
history and the activation requests one load of `p` with `forceReuse` false
and schedules the teardown, selecting no tab. -/
theorem C25_history_entry_opens_new_tab (E : PolicyEnv) (descs : List CStr) (P : PathFns)
    (this : CommandPaletteWnd) (g : Process) (p : CStr)
    (hlen : p.length ≤ (P.GetBaseNameTemp p).length + (P.GetDirTemp p).length + 1)
    (hsel : 0 ≤ this.listBox.currentSelection)
    (hitem : this.listBox.strings.get? this.listBox.currentSelection.toNat
      = some (ConvertPathForDisplayTemp P p))
    (hcmd : GetCommandIdByDesc E.cmds descs (ConvertPathForDisplayTemp P p) < 0)
    (hfound : (pairsOf this.convertedFilePaths).find?
        (fun pr => pr.2 == ConvertPathForDisplayTemp P p)
      = some (p, ConvertPathForDisplayTemp P p)) :
    ¬ (p.length > (ConvertPathForDisplayTemp P p).length + 3)
    ∧ ExecuteCurrentSelection.lookup (ConvertPathForDisplayTemp P p) this.convertedFilePaths
      = (p, false)
    ∧ ExecuteCurrentSelection E descs this g
      = { gWindows := g.gWindows
          gHwndToActivateOnClose := g.gHwndToActivateOnClose
          actions := g.actions
            ++ [Action.LoadDocument p this.win.hwndFrame false, Action.PostSafeDelete] } := by
  have hd := length_convertPathForDisplayTemp P p
  have htest : ¬ (p.length > (ConvertPathForDisplayTemp P p).length + 3) := by omega
  have hlook : ExecuteCurrentSelection.lookup (ConvertPathForDisplayTemp P p)
      this.convertedFilePaths = (p, false) := by
    rw [lookup_of_first_pair _ _ _ hfound, decide_eq_false htest]
  refine ⟨htest, hlook, ?_⟩
  have hs : ¬ this.listBox.currentSelection < 0 := by omega
  have hc : ¬ GetCommandIdByDesc E.cmds descs (ConvertPathForDisplayTemp P p) ≥ 0 := by omega
  unfold ExecuteCurrentSelection
  simp only [hs, if_false, hitem, hc, hlook, ScheduleDelete]
  simp

/-- Witness of C25: the history entry `C:\docs\old.pdf`. -/
theorem C25_history_entry_opens_new_tab_witness :
    ExecuteCurrentSelection sampleEnv sampleDescs historyPalette twoWindowsProcess
      = { gWindows := twoWindowsProcess.gWindows
          gHwndToActivateOnClose := twoWindowsProcess.gHwndToActivateOnClose
          actions := twoWindowsProcess.actions
            ++ [Action.LoadDocument "C:\\docs\\old.pdf".toList historyPalette.win.hwndFrame
                  false,
                Action.PostSafeDelete] } :=
  (C25_history_entry_opens_new_tab sampleEnv sampleDescs samplePaths historyPalette
    twoWindowsProcess "C:\\docs\\old.pdf".toList (by decide) (by decide) (by decide)
    (by decide) (by decide)).2.2

theorem safeDelete_of_none (s : Session) (h : s.gCommandPaletteWnd = none) :
    SafeDeleteCommandPaletteWnd s = s := by
  simp [SafeDeleteCommandPaletteWnd, h]

theorem safeDelete_pointer (s : Session) :
    (SafeDeleteCommandPaletteWnd s).gCommandPaletteWnd = none := by
  unfold SafeDeleteCommandPaletteWnd
  cases hw : s.gCommandPaletteWnd with
  | none => simp [hw]
  | some w =>
    by_cases hh : (s.proc.gHwndToActivateOnClose != 0) = true
    · simp [hh]
    · simp [hh]

theorem safeDelete_twice (s : Session) :
    SafeDeleteCommandPaletteWnd (SafeDeleteCommandPaletteWnd s)
      = SafeDeleteCommandPaletteWnd s :=
  safeDelete_of_none _ (safeDelete_pointer s)

theorem safeDelete_iterate (s : Session) (n : Nat) :
    SafeDeleteCommandPaletteWnd^[n + 1] s = SafeDeleteCommandPaletteWnd s := by
  induction n with
  | zero => rfl
  | succ k ih =>
    rw [Function.iterate_succ_apply', ih, safeDelete_twice]

/-- C26: teardown is idempotent and cancel has no other side effect.
`SafeDeleteCommandPaletteWnd` does nothing when no session is live; when one
is live it destroys the window, clears `gCommandPaletteWnd`, activates the
recorded focus-restoration window if there is one, and leaves that record
null; running it any number of times more has the same effect as running it
once, so focus is restored at most once; and each of the three cancel
triggers (Escape, deactivation, `OnDestroy`) only schedules the teardown. -/
theorem C26_teardown_idempotent (s : Session) :
    (s.gCommandPaletteWnd = none → SafeDeleteCommandPaletteWnd s = s)
    ∧ (∀ w, s.gCommandPaletteWnd = some w →
        SafeDeleteCommandPaletteWnd s
          = { gCommandPaletteWnd := none
              liveWnds := s.liveWnds - 1
              proc :=
                { gWindows := s.proc.gWindows
                  gHwndToActivateOnClose := 0
                  actions := s.proc.actions ++ [Action.DeleteCommandPaletteWnd]
                    ++ (if s.proc.gHwndToActivateOnClose = 0 then []
                        else [Action.SetActiveWindow s.proc.gHwndToActivateOnClose]) } })
    ∧ SafeDeleteCommandPaletteWnd (SafeDeleteCommandPaletteWnd s)
        = SafeDeleteCommandPaletteWnd s
    ∧ (∀ n : Nat, SafeDeleteCommandPaletteWnd^[n + 1] s = SafeDeleteCommandPaletteWnd s)
    ∧ (∀ (E : PolicyEnv) (descs : List CStr) (this : CommandPaletteWnd),
        PreTranslateMessage E descs this s.proc { message := WM_KEYDOWN, wParam := VK_ESCAPE }
          = (this, ScheduleDelete s.proc, true))
    ∧ WndProc s.proc WM_ACTIVATE WA_INACTIVE = some (ScheduleDelete s.proc, 0)
    ∧ OnDestroy s.proc = ScheduleDelete s.proc
    ∧ ScheduleDelete s.proc
        = { s.proc with actions := s.proc.actions ++ [Action.PostSafeDelete] } := by
  refine ⟨safeDelete_of_none s, ?_, safeDelete_twice s, safeDelete_iterate s, ?_, rfl, rfl,
    rfl⟩
  · intro w hw
    unfold SafeDeleteCommandPaletteWnd
    by_cases hh : s.proc.gHwndToActivateOnClose = 0
    · simp [hw, hh]
    · simp [hw, hh]
  · intro E descs this
    rfl

/-- C27 (code defect, the one of C1): over the corpus
`["Open File", "Open Folder", "Save As"]` the query `"open file"` keeps
`["Open File"]`, and the longer query `"open file older"` (a blank and the
word `older` appended) keeps `["Open Folder"]`, which is no sublist of the
former: the word `file` is no longer tested once a second whitespace
follows it. -/
theorem C27_further_word_widens_results :
    FilterStrings ["Open File".toList, "Open Folder".toList, "Save As".toList]
        (some "open file".toList) []
      = ["Open File".toList]
    ∧ FilterStrings ["Open File".toList, "Open Folder".toList, "Save As".toList]
        (some ("open file".toList ++ " ".toList ++ "older".toList)) []
      = ["Open Folder".toList]
    ∧ (∀ c ∈ "older".toList, IsWs c = false)
    ∧ ¬ List.Sublist
        (FilterStrings ["Open File".toList, "Open Folder".toList, "Save As".toList]
          (some ("open file".toList ++ " ".toList ++ "older".toList)) [])
        (FilterStrings ["Open File".toList, "Open Folder".toList, "Save As".toList]
          (some "open file".toList) [])
    ∧ FilterMatches.splitWords ("open file".toList ++ " ".toList ++ "older".toList) [] false []
      = ["open".toList, "older".toList] := by
  decide

/-! ## Theorems: the command part without a document -/

theorem buildCtx_isDocLoaded (win : WindowInfo) :
    (CollectPaletteStrings.buildCtx win).isDocLoaded = win.isDocLoaded := by
  unfold CollectPaletteStrings.buildCtx
  cases hfix : win.asFixed with
  | none => simp
  | some dm =>
    cases hel : dm.elementAtPos with
    | none => by_cases hpg : dm.pageNoByPoint > 0 <;> simp [hel, hpg]
    | some el => by_cases hpg : dm.pageNoByPoint > 0 <;> simp [hel, hpg]

theorem buildCtx_hasSelection (win : WindowInfo) (hdoc : win.isDocLoaded = false) :
    (CollectPaletteStrings.buildCtx win).hasSelection = false := by
  unfold CollectPaletteStrings.buildCtx
  cases hfix : win.asFixed with
  | none => simp [hdoc]
  | some dm =>
    cases hel : dm.elementAtPos with
    | none => by_cases hpg : dm.pageNoByPoint > 0 <;> simp [hel, hpg, hdoc]
    | some el => by_cases hpg : dm.pageNoByPoint > 0 <;> simp [hel, hpg, hdoc]

theorem buildCtx_allowToggleMenuBar (win : WindowInfo) :
    (CollectPaletteStrings.buildCtx win).allowToggleMenuBar = !win.tabsInTitlebar := by
  unfold CollectPaletteStrings.buildCtx
  cases hfix : win.asFixed with
  | none => simp
  | some dm =>
    cases hel : dm.elementAtPos with
    | none => by_cases hpg : dm.pageNoByPoint > 0 <;> simp [hel, hpg]
    | some el => by_cases hpg : dm.pageNoByPoint > 0 <;> simp [hel, hpg]

theorem allowCommand_eq_visibleWithoutDocument (E : PolicyEnv) (ctx : CommandPaletteBuildCtx)
    (hdoc : ctx.isDocLoaded = false) (hsel : ctx.hasSelection = false)
    (hchm : ctx.isChm = false) (hperm : E.perms = diskAndPrefsPerms)
    (hdist : ∀ id ∈ gDocumentNotOpenWhitelist E.cmds, id ∉ gatedCommands E.cmds
      ∧ ¬ (E.cmds.CmdCreateAnnotFirst ≤ id ∧ id ≤ E.cmds.CmdCreateAnnotLast))
    (id : Int) :
    AllowCommand E ctx id = visibleWithoutDocument E ctx id := by
  by_cases hb : id ∈ gBlacklistCommandsFromPalette E.cmds
  · have h := (cmdInList_iff _ _).mpr hb
    simp [AllowCommand, visibleWithoutDocument, h, hb]
  · by_cases hw : id ∈ gDocumentNotOpenWhitelist E.cmds
    · have g1 : __cmdInList id (gBlacklistCommandsFromPalette E.cmds) = false :=
        (cmdInList_eq_false_iff _ _).mpr hb
      have g2 : __cmdInList id (gDocumentNotOpenWhitelist E.cmds) = true :=
        (cmdInList_iff _ _).mpr hw
      by_cases hmb : id = E.cmds.CmdToggleMenuBar
      · simp only [AllowCommand, visibleWithoutDocument, g1, g2, decide_eq_true hw,
          decide_eq_false hb]
        simp [hmb]
      · obtain ⟨hg, hr⟩ := hdist id hw
        simp only [gatedCommands, List.mem_cons, List.mem_singleton, List.not_mem_nil,
          or_false, not_or] at hg
        obtain ⟨e1, e2, e3, e4, e5, e6, e7, e8, e9, e10, e11, e12, e13, e14⟩ := hg
        have hp1 : E.perms.InternetAccess = false := by rw [hperm]; rfl
        have hp2 : E.perms.FullscreenAccess = false := by rw [hperm]; rfl
        have hp3 : E.perms.SavePreferences = true := by rw [hperm]; rfl
        have hp4 : E.perms.PrinterAccess = false := by rw [hperm]; rfl
        have hp5 : E.perms.DiskAccess = true := by rw [hperm]; rfl
        have hp6 : E.perms.CopySelection = false := by rw [hperm]; rfl
        have hrange : (decide (id ≥ E.cmds.CmdCreateAnnotFirst)
            && decide (id ≤ E.cmds.CmdCreateAnnotLast)) = false := by
          simp only [Bool.and_eq_false_imp, decide_eq_true_eq, decide_eq_false_iff_not]
          intro h1 h2
          exact hr ⟨h1, h2⟩
        simp only [AllowCommand, AllowCommand.remove, AllowCommand.tail,
          visibleWithoutDocument, taggedForMissingCapability, g1, g2, decide_eq_true hw,
          decide_eq_false hb, hdoc, hsel, hchm, hp1, hp2, hp3, hp4, hp5, hp6, hrange,
          isCmdInMenuList_eq_decide]
        generalize decide (toUIntPtr id ∈ menuListEntries E.lists.removeIfNoInternetPerms)
          = t1
        generalize decide (toUIntPtr id ∈ menuListEntries E.lists.removeIfNoFullscreenPerms)
          = t2
        generalize decide (toUIntPtr id ∈ menuListEntries E.lists.removeIfNoCopyPerms) = t3
        generalize decide (toUIntPtr id ∈ menuListEntries E.lists.disableIfNoSelection) = t4
        generalize decide (toUIntPtr id ∈ menuListEntries E.lists.removeIfAnnotsNotSupported)
          = t5
        generalize decide (toUIntPtr id ∈ menuListEntries E.lists.removeIfNoPrefsPerms) = t6
        generalize decide (toUIntPtr id ∈ menuListEntries E.lists.removeIfNoDiskAccessPerm)
          = t7
        generalize decide (toUIntPtr id ∈ menuListEntries E.lists.removeIfChm) = t8
        have c1 : (id == E.cmds.CmdCheckUpdate) = decide (id = E.cmds.CmdCheckUpdate) := by
          by_cases hcu : id = E.cmds.CmdCheckUpdate <;> simp [hcu]
        rw [c1]
        generalize decide (id = E.cmds.CmdCheckUpdate) = cu
        cases t1 <;> cases t2 <;> cases t3 <;> cases t4 <;> cases t5 <;> cases cu <;>
          cases ctx.supportsAnnots <;> cases E.gIsPluginBuild <;>
          simp [hmb, e1, e2, e3, e4, e5, e6, e7, e8, e9, e10, e11, e12, e13, e14]
    · have h := (cmdInList_eq_false_iff _ _).mpr hw
      simp [AllowCommand, visibleWithoutDocument, h, hw, hdoc]

theorem allowCommand_toggleMenuBar_not_togglable (E : PolicyEnv)
    (ctx : CommandPaletteBuildCtx) (h : ctx.allowToggleMenuBar = false) :
    AllowCommand E ctx E.cmds.CmdToggleMenuBar = false := by
  simp [AllowCommand, h]

theorem allowCommand_checkUpdate_plugin (E : PolicyEnv) (ctx : CommandPaletteBuildCtx)
    (h : E.gIsPluginBuild = true) (hmb : E.cmds.CmdCheckUpdate ≠ E.cmds.CmdToggleMenuBar) :
    AllowCommand E ctx E.cmds.CmdCheckUpdate = false := by
  simp [AllowCommand, h, hmb]

theorem mem_descriptionsWhere (p : Int → Bool) (d : CStr) (descs : List CStr) (cmdId : Int)
    (h : d ∈ descriptionsWhere p descs cmdId) :
    ∃ i : Nat, descs[i]? = some d ∧ p (cmdId + i) = true := by
  induction descs generalizing cmdId with
  | nil => simp [descriptionsWhere] at h
  | cons strs rest ih =>
    have hrest : d ∈ descriptionsWhere p rest (cmdId + 1) →
        ∃ i : Nat, (strs :: rest)[i]? = some d ∧ p (cmdId + i) = true := by
      intro hr
      obtain ⟨i, hi, hp⟩ := ih (cmdId + 1) hr
      refine ⟨i + 1, by simpa using hi, ?_⟩
      have e : cmdId + ((i + 1 : Nat) : Int) = cmdId + 1 + (i : Int) := by push_cast; ring
      rw [e]
      exact hp
    by_cases hp : p cmdId = true
    · simp only [descriptionsWhere, hp, if_true, List.mem_cons] at h
      rcases h with h | h
      · exact ⟨0, by simp [h], by simpa using hp⟩
      · exact hrest h
    · simp only [descriptionsWhere, hp, Bool.false_eq_true, if_false] at h
      exact hrest h

theorem not_mem_corpus_of_denied (E : PolicyEnv) (P : PathFns) (A : AppState)
    (st : StrVec × StrVec) (win : WindowInfo) (d : CStr) (k : Nat)
    (hidx : ∀ i : Nat, A.gCommandDescriptions[i]? = some d → i = k)
    (hden : AllowCommand E (CollectPaletteStrings.buildCtx win) (E.cmds.CmdFirst + 1 + k)
      = false)
    (hhist : d ∉ (CollectPaletteStrings.history P A.fileStates
      (CollectPaletteStrings.opened P A.gWindows st)).1) :
    d ∉ (CollectPaletteStrings E P A st win).1 := by
  rw [collect_strings]
  simp only [CollectPaletteStrings.commandPart, commands_eq_descriptionsWhere,
    List.nil_append, List.mem_append, not_or]
  refine ⟨hhist, ?_⟩
  intro hmem
  have hmem2 := (getSortedViewNoCase_perm _).mem_iff.mp hmem
  obtain ⟨i, hi, hp⟩ := mem_descriptionsWhere _ _ _ _ hmem2
  rw [hidx i hi, hden] at hp
  exact Bool.false_ne_true hp

theorem sampleDescs_toggleMenuBar_index (i : Nat)
    (h : sampleDescs[i]? = some "Toggle Menu Bar".toList) : i = 10 := by
  have hlt : i < sampleDescs.length := by
    by_contra hge
    rw [List.getElem?_eq_none (Nat.le_of_not_lt hge)] at h
    exact Option.noConfusion h
  have hlen : sampleDescs.length = 49 := by decide
  rw [hlen] at hlt
  interval_cases i <;> first | rfl | (exfalso; revert h; decide)

theorem sampleDescs_checkUpdate_index (i : Nat)
    (h : sampleDescs[i]? = some "Check For Update".toList) : i = 25 := by
  have hlt : i < sampleDescs.length := by
    by_contra hge
    rw [List.getElem?_eq_none (Nat.le_of_not_lt hge)] at h
    exact Option.noConfusion h
  have hlen : sampleDescs.length = 49 := by decide
  rw [hlen] at hlt
  interval_cases i <;> first | rfl | (exfalso; revert h; decide)

/-- C9 (as stated, refuted): on the start page (no document loaded) with
exactly DiskAccess and SavePreferences granted, whitelisted commands that are
not blacklisted are missing from the corpus.  Whatever the shared menu lists
hold, "Toggle Menu Bar" is in the whitelist-minus-blacklist part and not in
the corpus, because the window draws its tabs in the title bar; and in a
plugin build the same holds of "Check For Update".  With the sample menu
lists the corpus is the eleven strings shown, against the seventeen of the
whitelist minus the blacklist. -/
theorem C9_whitelisted_commands_missing_from_corpus :
    startPageWindow.isDocLoaded = false
    ∧ diskAndPrefsEnv.perms = diskAndPrefsPerms
    ∧ "Toggle Menu Bar".toList ∈ whitelistMinusBlacklistPart sampleCmds sampleDescs
    ∧ (∀ L : MenuLists,
        "Toggle Menu Bar".toList ∉
          (CollectPaletteStrings { diskAndPrefsEnv with lists := L } samplePaths startPageApp
            ([], []) startPageWindow).1)
    ∧ "Check For Update".toList ∈ whitelistMinusBlacklistPart sampleCmds sampleDescs
    ∧ (∀ L : MenuLists,
        "Check For Update".toList ∉
          (CollectPaletteStrings { diskAndPrefsEnv with lists := L, gIsPluginBuild := true }
            samplePaths startPageApp ([], []) startPageWindow).1)
    ∧ (CollectPaletteStrings diskAndPrefsEnv samplePaths startPageApp ([], [])
        startPageWindow).1
      = [ "Advanced Options...".toList, "Change Language".toList,
          "Debug: Download Symbols".toList, "Exit Application".toList,
          "Help: About SumatraPDF".toList, "Open File...".toList, "Open Folder".toList,
          "Open New SumatraPDF Window".toList, "Options...".toList, "Show Logs".toList,
          "Toggle Favorites".toList ]
    ∧ whitelistMinusBlacklistPart sampleCmds sampleDescs
      = [ "Advanced Options...".toList, "Change Language".toList,
          "Check For Update".toList, "Contribute Translation".toList,
          "Debug: Download Symbols".toList, "Exit Application".toList,
          "Help: About SumatraPDF".toList, "Help: Manual".toList,
          "Help: SumatraPDF Website".toList, "Open File...".toList, "Open Folder".toList,
          "Open New SumatraPDF Window".toList, "Options...".toList, "Show Logs".toList,
          "Toggle Favorites".toList, "Toggle Fullscreen".toList,
          "Toggle Menu Bar".toList ] := by
  refine ⟨rfl, rfl, by decide, ?_, by decide, ?_, by decide, by decide⟩
  · intro L
    exact not_mem_corpus_of_denied { diskAndPrefsEnv with lists := L } samplePaths
      startPageApp ([], []) startPageWindow _ 10 sampleDescs_toggleMenuBar_index
      (allowCommand_toggleMenuBar_not_togglable { diskAndPrefsEnv with lists := L } _ rfl)
      (by decide)
  · intro L
    have hne : sampleCmds.CmdCheckUpdate ≠ sampleCmds.CmdToggleMenuBar := by decide
    exact not_mem_corpus_of_denied
      { diskAndPrefsEnv with lists := L, gIsPluginBuild := true } samplePaths
      startPageApp ([], []) startPageWindow _ 25 sampleDescs_checkUpdate_index
      (allowCommand_checkUpdate_plugin
        { diskAndPrefsEnv with lists := L, gIsPluginBuild := true } _ rfl hne)
      (by decide)

/-- C9 (amended): with no document loaded and exactly DiskAccess and
SavePreferences granted, the corpus ends with the command part, which is
exactly the descriptions, sorted case-insensitively, of the commands that are
in the whitelist and not in the blacklist, with these exceptions: the
toggle-menu-bar command is present only when the menu bar is togglable; the
update check is absent in a plugin build; and a command that a shared menu
list tags for a capability lacking here (InternetAccess, FullscreenAccess,
CopySelection, a selection, annotation support) is absent.  When the lists
tag no whitelisted command, only the first two exceptions remain.  (The
whitelisted enumerators are taken to differ from those the document, printer
and debug rules name, and to lie outside the annotation-creation range.) -/
theorem C9_command_part_without_document (E : PolicyEnv) (P : PathFns) (A : AppState)
    (st : StrVec × StrVec) (win : WindowInfo)
    (hdoc : win.isDocLoaded = false) (hperm : E.perms = diskAndPrefsPerms)
    (hdist : ∀ id ∈ gDocumentNotOpenWhitelist E.cmds, id ∉ gatedCommands E.cmds
      ∧ ¬ (E.cmds.CmdCreateAnnotFirst ≤ id ∧ id ≤ E.cmds.CmdCreateAnnotLast)) :
    (CollectPaletteStrings E P A st win).1
      = (CollectPaletteStrings.history P A.fileStates
          (CollectPaletteStrings.opened P A.gWindows st)).1
        ++ GetSortedViewNoCase
            (descriptionsWhere
              (visibleWithoutDocument E (CollectPaletteStrings.buildCtx win))
              A.gCommandDescriptions (E.cmds.CmdFirst + 1))
    ∧ List.Sorted (fun a b => lessEqNoCase a b = true)
        (GetSortedViewNoCase
            (descriptionsWhere
              (visibleWithoutDocument E (CollectPaletteStrings.buildCtx win))
              A.gCommandDescriptions (E.cmds.CmdFirst + 1)))
    ∧ ((∀ id ∈ gDocumentNotOpenWhitelist E.cmds,
          taggedForMissingCapability E (CollectPaletteStrings.buildCtx win) id = false) →
        (CollectPaletteStrings E P A st win).1
          = (CollectPaletteStrings.history P A.fileStates
              (CollectPaletteStrings.opened P A.gWindows st)).1
            ++ GetSortedViewNoCase
                (descriptionsWhere
                  (fun id => decide (id ∈ gDocumentNotOpenWhitelist E.cmds)
                    && !decide (id ∈ gBlacklistCommandsFromPalette E.cmds)
                    && (if id = E.cmds.CmdToggleMenuBar then !win.tabsInTitlebar
                        else !(E.gIsPluginBuild && decide (id = E.cmds.CmdCheckUpdate))))
                  A.gCommandDescriptions (E.cmds.CmdFirst + 1))) := by
  have hctx : (CollectPaletteStrings.buildCtx win).isDocLoaded = false := by
    rw [buildCtx_isDocLoaded, hdoc]
  have hpoint := allowCommand_eq_visibleWithoutDocument E (CollectPaletteStrings.buildCtx win)
    hctx (buildCtx_hasSelection win hdoc) (buildCtx_isChm win) hperm hdist
  have hmain : (CollectPaletteStrings E P A st win).1
      = (CollectPaletteStrings.history P A.fileStates
          (CollectPaletteStrings.opened P A.gWindows st)).1
        ++ GetSortedViewNoCase
            (descriptionsWhere
              (visibleWithoutDocument E (CollectPaletteStrings.buildCtx win))
              A.gCommandDescriptions (E.cmds.CmdFirst + 1)) := by
    rw [collect_strings]
    simp only [CollectPaletteStrings.commandPart, commands_eq_descriptionsWhere,
      List.nil_append]
    rw [descriptionsWhere_congr _ _ hpoint]
  refine ⟨hmain, getSortedViewNoCase_sorted _, ?_⟩
  intro huntagged
  rw [hmain]
  congr 2
  apply descriptionsWhere_congr
  intro id
  by_cases hw : id ∈ gDocumentNotOpenWhitelist E.cmds
  · simp only [visibleWithoutDocument, huntagged id hw, Bool.not_false, Bool.and_true,
      buildCtx_allowToggleMenuBar]
  · simp [visibleWithoutDocument, hw]

/-- Witness of C9 (amended): the start page with exactly DiskAccess and
SavePreferences granted, over the sample registry; and, with menu lists that
tag no command, the whitelist minus the blacklist without "Toggle Menu Bar". -/
theorem C9_command_part_without_document_witness :
    ((CollectPaletteStrings diskAndPrefsEnv samplePaths startPageApp ([], [])
        startPageWindow).1
      = (CollectPaletteStrings.history samplePaths startPageApp.fileStates
          (CollectPaletteStrings.opened samplePaths startPageApp.gWindows ([], []))).1
        ++ GetSortedViewNoCase
            (descriptionsWhere
              (visibleWithoutDocument diskAndPrefsEnv
                (CollectPaletteStrings.buildCtx startPageWindow))
              startPageApp.gCommandDescriptions (diskAndPrefsEnv.cmds.CmdFirst + 1)))
    ∧ GetSortedViewNoCase
        (descriptionsWhere
          (visibleWithoutDocument diskAndPrefsEnv
            (CollectPaletteStrings.buildCtx startPageWindow))
          startPageApp.gCommandDescriptions (diskAndPrefsEnv.cmds.CmdFirst + 1))
      = [ "Advanced Options...".toList, "Change Language".toList,
          "Debug: Download Symbols".toList, "Exit Application".toList,
          "Help: About SumatraPDF".toList, "Open File...".toList, "Open Folder".toList,
          "Open New SumatraPDF Window".toList, "Options...".toList, "Show Logs".toList,
          "Toggle Favorites".toList ]
    ∧ ((CollectPaletteStrings { diskAndPrefsEnv with lists := terminatorOnlyLists }
          samplePaths startPageApp ([], []) startPageWindow).1
        = (CollectPaletteStrings.history samplePaths startPageApp.fileStates
            (CollectPaletteStrings.opened samplePaths startPageApp.gWindows ([], []))).1
          ++ GetSortedViewNoCase
              (descriptionsWhere
                (fun id => decide (id ∈ gDocumentNotOpenWhitelist sampleCmds)
                  && !decide (id ∈ gBlacklistCommandsFromPalette sampleCmds)
                  && (if id = sampleCmds.CmdToggleMenuBar then !startPageWindow.tabsInTitlebar
                      else !(false && decide (id = sampleCmds.CmdCheckUpdate))))
                startPageApp.gCommandDescriptions (sampleCmds.CmdFirst + 1)))
    ∧ (CollectPaletteStrings { diskAndPrefsEnv with lists := terminatorOnlyLists }
          samplePaths startPageApp ([], []) startPageWindow).1
      = [ "Advanced Options...".toList, "Change Language".toList,
          "Check For Update".toList, "Contribute Translation".toList,
          "Debug: Download Symbols".toList, "Exit Application".toList,
          "Help: About SumatraPDF".toList, "Help: Manual".toList,
          "Help: SumatraPDF Website".toList, "Open File...".toList, "Open Folder".toList,
          "Open New SumatraPDF Window".toList, "Options...".toList, "Show Logs".toList,
          "Toggle Favorites".toList, "Toggle Fullscreen".toList ] :=
  ⟨(C9_command_part_without_document diskAndPrefsEnv samplePaths startPageApp ([], [])
      startPageWindow rfl rfl (by decide)).1,
   by decide,
   (C9_command_part_without_document { diskAndPrefsEnv with lists := terminatorOnlyLists }
      samplePaths startPageApp ([], []) startPageWindow rfl rfl (by decide)).2.2 (by decide),
   by decide⟩

end CommandPalette
